import Mathlib

/-!
# SemanticPen Go SDK: shallow embedding and verified properties

The Go client (`articles.go`, `client.go`, `types.go`, `errors.go`) is embedded as
state-passing functions over a `World` that records what the client does to its
surroundings: the HTTP requests it performs, the invocations of the progress
observer and the suspensions (`time.Sleep`).

What the client cannot decide by itself is taken as a parameter:

* `Stdlib` holds the behaviour of `encoding/json` and `net/http.NewRequest`;
* `Client.httpClient` holds the behaviour of the remote end, as a function from the
  requests performed so far and the current request to the outcome of `Do`.

Go's `int` is embedded as `Int`.  The only arithmetic the client performs on an `int`
is the increment of the loop counter of `WaitForArticle`, which starts at 1 and leaves
the range of `int` only after 2^63 consecutive retrievals without a terminal snapshot
(2^31 where `int` has 32 bits); the counter is therefore not reduced modulo the word
size.  A `time.Duration` is an `Int` number of nanoseconds.
-/

namespace SemanticPen

/-! ## Data model (`types.go`) -/

/-- A `map[string]interface{}` whose content the client never inspects: the entries are
kept as key and JSON text of the value.  A nil map is `none` at the place of use. -/
abbrev JSONMap := List (String × String)

/-- The struct `GenerationOptions`. -/
structure GenerationOptions where
  ProjectName : String
  Language : String
  Country : String
  Perspective : String
  Purpose : String
  ClickbaitLevel : Int
  deriving DecidableEq

/-- The struct `SEOOptions`. -/
structure SEOOptions where
  Title : String
  Description : String
  Keywords : List String
  UseSchema : Bool
  deriving DecidableEq

/-- The struct `WritingOptions`. -/
structure WritingOptions where
  Style : String
  Tone : String
  Length : String
  IncludeImages : Bool
  ImageStyle : String
  deriving DecidableEq

/-- The struct `GenerateArticleRequest`; the pointer fields and the map are `Option`s,
`none` standing for nil. -/
structure GenerateArticleRequest where
  TargetKeyword : String
  Generation : Option GenerationOptions
  SEO : Option SEOOptions
  Writing : Option WritingOptions
  Advanced : Option JSONMap
  deriving DecidableEq

/-- The struct `GenerateArticleResponse`. -/
structure GenerateArticleResponse where
  ArticleID : String
  ProjectID : String
  Message : String
  deriving DecidableEq

/-- The struct `SEOData`. -/
structure SEOData where
  Title : String
  Description : String
  Keywords : List String
  Schema : Option JSONMap
  deriving DecidableEq

/-- The struct `Article`; the two `time.Time` fields are kept as nanoseconds since the
epoch. -/
structure Article where
  ID : String
  ProjectID : String
  Status : String
  Progress : Int
  Title : String
  ArticleHTML : String
  ArticleJSON : Option JSONMap
  SEOData : Option SEOData
  ErrorMessage : String
  CreatedAt : Int
  UpdatedAt : Int
  deriving DecidableEq

/-- The struct `GenerateAndWaitOptions`.  `OnProgress` tells whether the function value is
non-nil; the model of a call of the function is the record of its arguments in
`World.progress`. -/
structure GenerateAndWaitOptions where
  MaxAttempts : Int
  Interval : Int
  OnProgress : Bool
  deriving DecidableEq

/-- The constant `time.Second`, in nanoseconds. -/
def Second : Int := 1000000000

/-! ## Errors (`errors.go`) -/

/-- The struct `APIError`. -/
structure APIError where
  StatusCode : Int
  Message : String
  Details : String
  deriving DecidableEq

/-- The struct `ValidationError`. -/
structure ValidationError where
  Field : String
  Message : String
  deriving DecidableEq

/-- The values of Go's `error` interface that the client returns: a `*ValidationError`, an
`*APIError`, the result of `fmt.Errorf` without `%w` (an error that is only its text) and
the result of `fmt.Errorf` with `%w` (its text and the text of the error it wraps). -/
inductive Error where
  | validation (e : ValidationError)
  | api (e : APIError)
  | errorString (text : String)
  | wrapError (text : String) (cause : String)
  deriving DecidableEq

/-- The outcome of a Go function returning `(T, error)`. -/
inductive Result (α : Type) where
  | ok (value : α)
  | err (e : Error)
  deriving DecidableEq

/-! ## Transport (`client.go`) -/

/-- What `makeRequest` hands to `httpClient.Do`: method, URL, the two headers it sets and
the value whose JSON encoding is the payload (`none` for a nil body). -/
structure Request where
  Method : String
  URL : String
  Header : List (String × String)
  Body : Option GenerateArticleRequest
  deriving DecidableEq

/-- What the client reads from an `*http.Response`: the status code, the bytes
`io.ReadAll(resp.Body)` yields and the error it reports, if any. -/
structure Response where
  StatusCode : Int
  Body : String
  ReadErr : Option String
  deriving DecidableEq

/-- The `http.Client` of the client together with the remote end: the outcome of `Do` for
a request, given the requests performed before it (oldest first). -/
structure HTTPClient where
  Do : List Request → Request → Except String Response

/-- The standard-library functions whose result the client branches on.  `Marshal` is
`json.Marshal` on a request value, `NewRequest` gives the error of `http.NewRequest` for a
method and a URL, and the three `Unmarshal` functions are `json.Unmarshal` into a zero
value of the respective struct. -/
structure Stdlib where
  Marshal : GenerateArticleRequest → Except String String
  NewRequest : String → String → Option String
  UnmarshalAPIError : String → Except String APIError
  UnmarshalArticle : String → Except String Article
  UnmarshalGenerateArticleResponse : String → Except String GenerateArticleResponse

/-- The struct `Client`. -/
structure Client where
  apiKey : String
  baseURL : String
  httpClient : HTTPClient
  debug : Bool

/-- The surroundings of the client.  `requests`, `progress` and `sleeps` are the effects of
the code, oldest first.  `getCalls` and `generateCalls` count the invocations of
`GetArticle` and `GenerateArticle`; no definition reads them, they only serve to state how
often the two methods run. -/
structure World where
  requests : List Request
  progress : List (Int × String)
  sleeps : List Int
  getCalls : Nat
  generateCalls : Nat
  deriving DecidableEq

/-- The method `makeRequest`.  The diagnostic output under `c.debug` goes to standard
output and is not part of the model. -/
def makeRequest (std : Stdlib) (c : Client) (method endpoint : String)
    (body : Option GenerateArticleRequest) (w : World) : Result Response × World :=
  let url := c.baseURL ++ endpoint
  match body.map std.Marshal with
  | some (.error e) => (.err (.wrapError ("failed to marshal request body: " ++ e) e), w)
  | _ =>
    match std.NewRequest method url with
    | some e => (.err (.wrapError ("failed to create request: " ++ e) e), w)
    | none =>
      let req : Request :=
        { Method := method, URL := url,
          Header := [("Content-Type", "application/json"),
                     ("Authorization", "Bearer " ++ c.apiKey)],
          Body := body }
      match c.httpClient.Do w.requests req with
      | .error e =>
        (.err (.wrapError ("request failed: " ++ e) e), { w with requests := w.requests ++ [req] })
      | .ok resp => (.ok resp, { w with requests := w.requests ++ [req] })

/-! ## Resource operations (`articles.go`) -/

/-- The method `parseErrorResponse`; the `error` it returns always holds an `*APIError`. -/
def parseErrorResponse (std : Stdlib) (statusCode : Int) (body : String) : APIError :=
  match std.UnmarshalAPIError body with
  | .error _ => { StatusCode := statusCode, Message := body, Details := "" }
  | .ok apiErr => { apiErr with StatusCode := statusCode }

/-- The method `GenerateArticle`. -/
def GenerateArticle (std : Stdlib) (c : Client) (targetKeyword : String)
    (options : Option GenerateArticleRequest) (w0 : World) :
    Result GenerateArticleResponse × World :=
  let w := { w0 with generateCalls := w0.generateCalls + 1 }
  if targetKeyword = "" then
    (.err (.validation { Field := "targetKeyword", Message := "target keyword is required" }), w)
  else
    let request : GenerateArticleRequest :=
      match options with
      | none =>
        { TargetKeyword := targetKeyword, Generation := none, SEO := none, Writing := none,
          Advanced := none }
      | some o =>
        { TargetKeyword := targetKeyword, Generation := o.Generation, SEO := o.SEO,
          Writing := o.Writing, Advanced := o.Advanced }
    match makeRequest std c "POST" "/generate-article" (some request) w with
    | (.err e, w1) => (.err e, w1)
    | (.ok resp, w1) =>
      match resp.ReadErr with
      | some e => (.err (.wrapError ("failed to read response body: " ++ e) e), w1)
      | none =>
        if resp.StatusCode ≠ 200 then
          (.err (.api (parseErrorResponse std resp.StatusCode resp.Body)), w1)
        else
          match std.UnmarshalGenerateArticleResponse resp.Body with
          | .error e => (.err (.wrapError ("failed to parse response: " ++ e) e), w1)
          | .ok result => (.ok result, w1)

/-- The method `GetArticle`. -/
def GetArticle (std : Stdlib) (c : Client) (articleID : String) (w0 : World) :
    Result Article × World :=
  let w := { w0 with getCalls := w0.getCalls + 1 }
  if articleID = "" then
    (.err (.validation { Field := "articleID", Message := "article ID is required" }), w)
  else
    let endpoint := "/articles/" ++ articleID
    match makeRequest std c "GET" endpoint none w with
    | (.err e, w1) => (.err e, w1)
    | (.ok resp, w1) =>
      match resp.ReadErr with
      | some e => (.err (.wrapError ("failed to read response body: " ++ e) e), w1)
      | none =>
        if resp.StatusCode ≠ 200 then
          (.err (.api (parseErrorResponse std resp.StatusCode resp.Body)), w1)
        else
          match std.UnmarshalArticle resp.Body with
          | .error e => (.err (.wrapError ("failed to parse response: " ++ e) e), w1)
          | .ok article => (.ok article, w1)

/-- The method `DeleteArticle`; `none` is the nil error.  The error of `io.ReadAll` is
discarded by the code, so the bytes read are used whatever `ReadErr` is. -/
def DeleteArticle (std : Stdlib) (c : Client) (articleID : String) (w : World) :
    Option Error × World :=
  if articleID = "" then
    (some (.validation { Field := "articleID", Message := "article ID is required" }), w)
  else
    let endpoint := "/articles/" ++ articleID
    match makeRequest std c "DELETE" endpoint none w with
    | (.err e, w1) => (some e, w1)
    | (.ok resp, w1) =>
      if resp.StatusCode ≠ 200 ∧ resp.StatusCode ≠ 204 then
        (some (.api (parseErrorResponse std resp.StatusCode resp.Body)), w1)
      else
        (none, w1)

/-- The text of the error `WaitForArticle` returns for a snapshot whose status is
`failed`: `fmt.Errorf("article generation failed: %s", article.ErrorMessage)`. -/
def generationFailed (message : String) : Error :=
  .errorString ("article generation failed: " ++ message)

/-- The error `WaitForArticle` returns after the loop:
`fmt.Errorf("article generation timeout after %d attempts", options.MaxAttempts)`. -/
def generationTimeout (maxAttempts : Int) : Error :=
  .errorString ("article generation timeout after " ++ toString maxAttempts ++ " attempts")

/-- The loop `for attempt := 1; attempt <= options.MaxAttempts; attempt++` of
`WaitForArticle`, entered with the current value of `attempt`.  The first argument is the
number of iterations the bound still allows; `WaitForArticle` starts it with
`options.MaxAttempts.toNat`, for which it is `0` exactly when the loop condition fails
(`waitLoop_fuel`).  Both ways out of the `switch` that continue the loop go through the
post statement `attempt++`; only the `continue` of the `pending`/`processing` case sleeps
before. -/
def waitLoop (std : Stdlib) (c : Client) (articleID : String) (options : GenerateAndWaitOptions) :
    Nat → Int → World → Result Article × World
  | 0, _, w => (.err (generationTimeout options.MaxAttempts), w)
  | n + 1, attempt, w =>
    if attempt ≤ options.MaxAttempts then
      match GetArticle std c articleID w with
      | (.err e, w1) => (.err e, w1)
      | (.ok article, w1) =>
        let w2 :=
          if options.OnProgress then
            { w1 with progress := w1.progress ++ [(attempt, article.Status)] }
          else w1
        if article.Status = "finished" then (.ok article, w2)
        else if article.Status = "failed" then
          (.err (generationFailed article.ErrorMessage), w2)
        else if article.Status = "pending" ∨ article.Status = "processing" then
          if attempt < options.MaxAttempts then
            waitLoop std c articleID options n (attempt + 1)
              { w2 with sleeps := w2.sleeps ++ [options.Interval] }
          else waitLoop std c articleID options n (attempt + 1) w2
        else waitLoop std c articleID options n (attempt + 1) w2
    else (.err (generationTimeout options.MaxAttempts), w)

/-- The options `WaitForArticle` works with: those of the caller, or the struct it builds
when the pointer is nil. -/
def WaitForArticle.effective (options : Option GenerateAndWaitOptions) : GenerateAndWaitOptions :=
  match options with
  | none => { MaxAttempts := 60, Interval := 5 * Second, OnProgress := false }
  | some o => o

/-- The method `WaitForArticle`; `options` is `none` for a nil pointer. -/
def WaitForArticle (std : Stdlib) (c : Client) (articleID : String)
    (options : Option GenerateAndWaitOptions) (w : World) : Result Article × World :=
  let options := WaitForArticle.effective options
  waitLoop std c articleID options options.MaxAttempts.toNat 1 w

/-- The first three statements of `GenerateArticleAndWait`: the struct `waitOptions` points
to when `GenerateArticle` is called.  For a non-nil `waitOptions` the two assignments are
made through the pointer, that is to the struct of the caller. -/
def GenerateArticleAndWait.defaults (waitOptions : Option GenerateAndWaitOptions) :
    GenerateAndWaitOptions :=
  let o1 : GenerateAndWaitOptions :=
    match waitOptions with
    | none => { MaxAttempts := 60, Interval := 5 * Second, OnProgress := false }
    | some o => o
  let o2 := if o1.MaxAttempts = 0 then { o1 with MaxAttempts := 60 } else o1
  if o2.Interval = 0 then { o2 with Interval := 5 * Second } else o2

/-- The struct of the caller after `GenerateArticleAndWait` (`none` when the caller passed
nil and so has no struct). -/
def GenerateArticleAndWait.callerOptions (waitOptions : Option GenerateAndWaitOptions) :
    Option GenerateAndWaitOptions :=
  waitOptions.map fun _ => GenerateArticleAndWait.defaults waitOptions

/-- The method `GenerateArticleAndWait`. -/
def GenerateArticleAndWait (std : Stdlib) (c : Client) (targetKeyword : String)
    (options : Option GenerateArticleRequest) (waitOptions : Option GenerateAndWaitOptions)
    (w : World) : Result Article × World :=
  let waitOptions := GenerateArticleAndWait.defaults waitOptions
  match GenerateArticle std c targetKeyword options w with
  | (.err e, w1) => (.err e, w1)
  | (.ok result, w1) => WaitForArticle std c result.ArticleID (some waitOptions) w1

/-! ## The wait options as a struct behind a pointer

Both polling methods receive their options as a `*GenerateAndWaitOptions`.  The
definitions above work with the struct the pointer leads to; the ones below keep track of
which struct that is, so that writes through the pointer to the struct of the caller are
visible. -/

/-- A value of type `*GenerateAndWaitOptions` inside a polling call: nil, the address of
the struct of the caller, or the address of the struct the call allocated itself. -/
inductive OptionsPtr where
  | null
  | caller
  | allocated
  deriving DecidableEq

/-- The structs the two addresses lead to: `caller` is `none` when the caller passed nil,
`allocated` is `none` as long as the call has not allocated a struct. -/
structure OptionsStore where
  caller : Option GenerateAndWaitOptions
  allocated : Option GenerateAndWaitOptions
  deriving DecidableEq

/-- The struct behind a pointer (`none` behind nil). -/
def OptionsStore.load (st : OptionsStore) : OptionsPtr → Option GenerateAndWaitOptions
  | .null => none
  | .caller => st.caller
  | .allocated => st.allocated

/-- An assignment to a field of the struct behind a pointer. -/
def OptionsStore.assign (st : OptionsStore) (p : OptionsPtr)
    (f : GenerateAndWaitOptions → GenerateAndWaitOptions) : OptionsStore :=
  match p with
  | .null => st
  | .caller => { st with caller := st.caller.map f }
  | .allocated => { st with allocated := st.allocated.map f }

/-- The pointer parameter and the structs when a polling method is entered by a caller
that passes `options` (`none` for nil). -/
def OptionsStore.entry (options : Option GenerateAndWaitOptions) : OptionsPtr × OptionsStore :=
  (if options.isSome then .caller else .null, { caller := options, allocated := none })

/-- The statement both polling methods begin with: when the pointer is nil, it is made to
point to a new struct with `MaxAttempts: 60` and `Interval: 5 * time.Second`. -/
def allocateDefaults (ps : OptionsPtr × OptionsStore) : OptionsPtr × OptionsStore :=
  match ps.1 with
  | .null =>
    (.allocated,
      { ps.2 with
        allocated := some { MaxAttempts := 60, Interval := 5 * Second, OnProgress := false } })
  | _ => ps

/-- What `WaitForArticle` does to its pointer and to the structs: the nil check; the loop
after it only reads `options.MaxAttempts`, `options.OnProgress` and `options.Interval`. -/
def WaitForArticle.store (ps : OptionsPtr × OptionsStore) : OptionsPtr × OptionsStore :=
  allocateDefaults ps

/-- What `GenerateArticleAndWait` does to its pointer and to the structs: the nil check,
the two assignments guarded by the zero checks, and then, when `GenerateArticle`
succeeded (`generated`), the call of `WaitForArticle` with the pointer. -/
def GenerateArticleAndWait.store (ps : OptionsPtr × OptionsStore) (generated : Bool) :
    OptionsPtr × OptionsStore :=
  let ps1 := allocateDefaults ps
  let ps2 :=
    if (ps1.2.load ps1.1).map (fun o => o.MaxAttempts) = some 0 then
      (ps1.1, ps1.2.assign ps1.1 fun o => { o with MaxAttempts := 60 })
    else ps1
  let ps3 :=
    if (ps2.2.load ps2.1).map (fun o => o.Interval) = some 0 then
      (ps2.1, ps2.2.assign ps2.1 fun o => { o with Interval := 5 * Second })
    else ps2
  if generated then (ps3.1, (WaitForArticle.store ps3).2) else ps3

/-! ## Vocabulary of the statements -/

/-- The surroundings after `n` successive calls of `GetArticle`. -/
def pollWorld (std : Stdlib) (c : Client) (articleID : String) : Nat → World → World
  | 0, w => w
  | n + 1, w => pollWorld std c articleID n (GetArticle std c articleID w).2

/-- The scripted sequence of `GetArticle` results seen from `w`: `nthPoll .. w i` is what
the call number `i + 1` returns. -/
def nthPoll (std : Stdlib) (c : Client) (articleID : String) (w : World) (i : Nat) :
    Result Article :=
  (GetArticle std c articleID (pollWorld std c articleID i w)).1

/-- A retrieval that succeeded with a snapshot whose status is neither `finished` nor
`failed`. -/
def Result.nonTerminal : Result Article → Prop
  | .ok a => a.Status ≠ "finished" ∧ a.Status ≠ "failed"
  | .err _ => False

/-- A retrieval that succeeded with a snapshot whose status is `pending` or `processing`. -/
def Result.inProgress : Result Article → Prop
  | .ok a => a.Status = "pending" ∨ a.Status = "processing"
  | .err _ => False

instance Result.decidableNonTerminal : (r : Result Article) → Decidable r.nonTerminal
  | .ok a => inferInstanceAs (Decidable (a.Status ≠ "finished" ∧ a.Status ≠ "failed"))
  | .err _ => inferInstanceAs (Decidable False)

instance Result.decidableInProgress : (r : Result Article) → Decidable r.inProgress
  | .ok a => inferInstanceAs (Decidable (a.Status = "pending" ∨ a.Status = "processing"))
  | .err _ => inferInstanceAs (Decidable False)

/-- The status of the snapshot of a retrieval (the empty string when it failed). -/
def Result.status : Result Article → String
  | .ok a => a.Status
  | .err _ => ""

/-- The number of `GetArticle` calls made between two states of the surroundings. -/
def retrievals (before after : World) : Nat := after.getCalls - before.getCalls

/-- The invocations of the progress observer for the first `k` results of `script`, the
first of them polled at attempt `a`: none when no observer is supplied, otherwise one
per result, in order, with the attempt number and the status. -/
def observed (options : GenerateAndWaitOptions) (a : Int) (script : Nat → Result Article)
    (k : Nat) : List (Int × String) :=
  if options.OnProgress then (List.range k).map fun (i : Nat) => (a + (i : Int), Result.status (script i))
  else []

/-- The suspensions that follow the first `k` results of `script`, the first of them
polled at attempt `a`: one of the configured interval after each result whose status is
`pending` or `processing`, unless its attempt is the last one allowed. -/
def suspensions (options : GenerateAndWaitOptions) (a : Int) (script : Nat → Result Article)
    (k : Nat) : List Int :=
  ((List.range k).filter fun (i : Nat) =>
      decide ((script i).inProgress ∧ a + (i : Int) < options.MaxAttempts)).map
    fun _ => options.Interval

/-- Two scripted sequences of results of which the second is the first with the status
of some snapshots that are not terminal replaced by strings other than `pending`,
`processing`, `finished` and `failed`. -/
def StatusReplaced (f g : Nat → Result Article) : Prop :=
  ∀ i, f i = g i ∨
    ∃ a u, f i = .ok a ∧ a.Status ≠ "finished" ∧ a.Status ≠ "failed" ∧
      u ≠ "pending" ∧ u ≠ "processing" ∧ u ≠ "finished" ∧ u ≠ "failed" ∧
      g i = .ok { a with Status := u }

/-- The result of a run of the loop that made `k` retrievals of `script`, read off the
last of them. -/
def loopResult (o : GenerateAndWaitOptions) (script : Nat → Result Article) :
    Nat → Result Article
  | 0 => .err (generationTimeout o.MaxAttempts)
  | j + 1 =>
    match script j with
    | .err e => .err e
    | .ok s =>
      if s.Status = "finished" then .ok s
      else if s.Status = "failed" then .err (generationFailed s.ErrorMessage)
      else .err (generationTimeout o.MaxAttempts)

/-- The number of retrievals, among the `k` made, that gave a snapshot: all of them, or
all but the last when the last one failed. -/
def snapshotCount (script : Nat → Result Article) : Nat → Nat
  | 0 => 0
  | j + 1 =>
    match script j with
    | .err _ => j
    | .ok _ => j + 1

/-- The part of the surroundings `makeRequest` and `GetArticle` depend on: the request log
alone. -/
def World.net (w : World) : World :=
  { requests := w.requests, progress := [], sleeps := [], getCalls := 0, generateCalls := 0 }

/-- The summary of a run of the loop of `WaitForArticle` that was entered at attempt `a`
in the surroundings `w` with `n` iterations allowed, ended with `out` and made `k`
retrievals: all retrievals but the last gave a snapshot that is not terminal, and the run
ended in one of four ways, by exhausting the iterations, on a `finished` snapshot, on a
`failed` snapshot, or on a retrieval that failed. -/
def LoopRun (std : Stdlib) (c : Client) (articleID : String) (o : GenerateAndWaitOptions)
    (n : Nat) (a : Int) (w : World) (out : Result Article × World) (k : Nat) : Prop :=
  k ≤ n ∧ out.2.getCalls = w.getCalls + k ∧ out.2.generateCalls = w.generateCalls ∧
  out.2.requests = (pollWorld std c articleID k w).requests ∧
  (∀ i, i + 1 < k → (nthPoll std c articleID w i).nonTerminal) ∧
  ((k = n ∧ (∀ i, i < k → (nthPoll std c articleID w i).nonTerminal) ∧
      out.1 = .err (generationTimeout o.MaxAttempts) ∧
      out.2.progress = w.progress ++ observed o a (nthPoll std c articleID w) k) ∨
   (∃ j s, k = j + 1 ∧ nthPoll std c articleID w j = .ok s ∧ s.Status = "finished" ∧
      out.1 = .ok s ∧
      out.2.progress = w.progress ++ observed o a (nthPoll std c articleID w) k) ∨
   (∃ j s, k = j + 1 ∧ nthPoll std c articleID w j = .ok s ∧ s.Status = "failed" ∧
      out.1 = .err (generationFailed s.ErrorMessage) ∧
      out.2.progress = w.progress ++ observed o a (nthPoll std c articleID w) k) ∨
   (∃ j e, k = j + 1 ∧ nthPoll std c articleID w j = .err e ∧ out.1 = .err e ∧
      out.2.progress = w.progress ++ observed o a (nthPoll std c articleID w) j))

/-! ## A scripted remote end, for the scenarios -/

/-- An article `A1` of which only the status and the error message vary. -/
def snapshot (status errorMessage : String) : Article :=
  { ID := "A1", ProjectID := "P1", Status := status, Progress := 0, Title := "",
    ArticleHTML := "", ArticleJSON := none, SEOData := none, ErrorMessage := errorMessage,
    CreatedAt := 0, UpdatedAt := 0 }

/-- A toy `Stdlib`: every value can be marshalled and every URL is accepted; a body is a
structured error only if it is the one of the scenario of the specification; the body of an
article is its status, and the article whose status is `failed` has the error message
`quota exceeded`; the acknowledgement is always `A1`. -/
def scriptStd : Stdlib where
  Marshal := fun _ => .ok ""
  NewRequest := fun _ _ => none
  UnmarshalAPIError := fun body =>
    if body = "\x7b\"message\":\"bad request\",\"details\":\"missing field\"\x7d" then
      .ok { StatusCode := 0, Message := "bad request", Details := "missing field" }
    else .error "invalid character"
  UnmarshalArticle := fun body =>
    if body = "" then .error "unexpected end of JSON input"
    else if body = "failed" then .ok (snapshot "failed" "quota exceeded")
    else .ok (snapshot body "")
  UnmarshalGenerateArticleResponse := fun _ =>
    .ok { ArticleID := "A1", ProjectID := "P1", Message := "queued" }

/-- A client whose remote end answers the request number `i` with the entry number `i` of
`script`, and fails once the script is used up. -/
def scriptClient (script : List (Except String Response)) : Client where
  apiKey := "key"
  baseURL := "https://semanticpen.vercel.app/api"
  httpClient := { Do := fun earlier _ => script.getD earlier.length (.error "EOF") }
  debug := false

/-- A response with status 200 and the given body. -/
def okBody (body : String) : Except String Response :=
  .ok { StatusCode := 200, Body := body, ReadErr := none }

/-- The surroundings before anything happened. -/
def World.initial : World :=
  { requests := [], progress := [], sleeps := [], getCalls := 0, generateCalls := 0 }

/-! ## Frame properties of the transport and of `GetArticle` -/

/-- `makeRequest` reads and writes the request log only. -/
theorem makeRequest_frame (std : Stdlib) (c : Client) (method endpoint : String)
    (body : Option GenerateArticleRequest) (w : World) :
    makeRequest std c method endpoint body w =
      ((makeRequest std c method endpoint body w.net).1,
        { w with requests := (makeRequest std c method endpoint body w.net).2.requests }) := by
  unfold makeRequest World.net
  have key : ∀ (d : Except String Response) (req : Request),
      (match d with
        | .error e =>
          ((Result.err (.wrapError ("request failed: " ++ e) e) : Result Response),
            { w with requests := w.requests ++ [req] })
        | .ok resp => (.ok resp, { w with requests := w.requests ++ [req] })) =
      ((match d with
        | .error e =>
          ((Result.err (.wrapError ("request failed: " ++ e) e) : Result Response),
            ({ requests := w.requests ++ [req], progress := [], sleeps := [], getCalls := 0,
               generateCalls := 0 } : World))
        | .ok resp =>
          (.ok resp, { requests := w.requests ++ [req], progress := [], sleeps := [],
                       getCalls := 0, generateCalls := 0 })).1,
        { w with requests := (match d with
          | .error e =>
            ((Result.err (.wrapError ("request failed: " ++ e) e) : Result Response),
              ({ requests := w.requests ++ [req], progress := [], sleeps := [], getCalls := 0,
                 generateCalls := 0 } : World))
          | .ok resp =>
            (.ok resp, { requests := w.requests ++ [req], progress := [], sleeps := [],
                         getCalls := 0, generateCalls := 0 })).2.requests }) := by
    intro d req
    cases d <;> rfl
  rcases body with _ | b
  · simp only [Option.map_none']
    rcases std.NewRequest method (c.baseURL ++ endpoint) with _ | e2
    · exact key _ _
    · rfl
  · simp only [Option.map_some']
    rcases std.Marshal b with e | m
    · rfl
    · simp only []
      rcases std.NewRequest method (c.baseURL ++ endpoint) with _ | e2
      · exact key _ _
      · rfl

/-- `GetArticle` reads the request log only, and writes the request log and its call
counter only. -/
theorem GetArticle_frame (std : Stdlib) (c : Client) (articleID : String) (w : World) :
    GetArticle std c articleID w =
      ((GetArticle std c articleID w.net).1,
        { w with
          requests := (GetArticle std c articleID w.net).2.requests,
          getCalls := w.getCalls + 1 }) := by
  unfold GetArticle
  by_cases hid : articleID = ""
  · simp [hid, World.net]
  · simp only [hid, if_false]
    rw [makeRequest_frame std c "GET" _ none { w with getCalls := w.getCalls + 1 },
      makeRequest_frame std c "GET" _ none { w.net with getCalls := w.net.getCalls + 1 }]
    have hnet : World.net { w with getCalls := w.getCalls + 1 } = w.net := rfl
    have hnet2 : World.net { w.net with getCalls := w.net.getCalls + 1 } = w.net := rfl
    rw [hnet, hnet2]
    rcases makeRequest std c "GET" ("/articles/" ++ articleID) none w.net with ⟨r, w1⟩
    cases r with
    | err e => rfl
    | ok resp =>
      simp only []
      rcases resp.ReadErr with _ | e
      · simp only []
        by_cases hs : resp.StatusCode ≠ 200
        · rw [if_pos hs, if_pos hs]
        · rw [if_neg hs, if_neg hs]
          rcases std.UnmarshalArticle resp.Body with e | a <;> rfl
      · rfl

theorem GetArticle_result_congr (std : Stdlib) (c : Client) (articleID : String)
    {w v : World} (h : w.requests = v.requests) :
    (GetArticle std c articleID w).1 = (GetArticle std c articleID v).1 := by
  rw [GetArticle_frame std c articleID w, GetArticle_frame std c articleID v]
  simp only [World.net, h]

theorem GetArticle_requests_congr (std : Stdlib) (c : Client) (articleID : String)
    {w v : World} (h : w.requests = v.requests) :
    (GetArticle std c articleID w).2.requests = (GetArticle std c articleID v).2.requests := by
  rw [GetArticle_frame std c articleID w, GetArticle_frame std c articleID v]
  simp only [World.net, h]

theorem GetArticle_getCalls (std : Stdlib) (c : Client) (articleID : String) (w : World) :
    (GetArticle std c articleID w).2.getCalls = w.getCalls + 1 := by
  rw [GetArticle_frame]

theorem GetArticle_generateCalls (std : Stdlib) (c : Client) (articleID : String) (w : World) :
    (GetArticle std c articleID w).2.generateCalls = w.generateCalls := by
  rw [GetArticle_frame]

theorem GetArticle_progress (std : Stdlib) (c : Client) (articleID : String) (w : World) :
    (GetArticle std c articleID w).2.progress = w.progress := by
  rw [GetArticle_frame]

theorem GetArticle_sleeps (std : Stdlib) (c : Client) (articleID : String) (w : World) :
    (GetArticle std c articleID w).2.sleeps = w.sleeps := by
  rw [GetArticle_frame]

/-! ## The scripted sequence of retrievals -/

theorem pollWorld_requests_congr (std : Stdlib) (c : Client) (articleID : String) :
    ∀ (n : Nat) (w v : World), w.requests = v.requests →
      (pollWorld std c articleID n w).requests = (pollWorld std c articleID n v).requests
  | 0, _, _, h => h
  | n + 1, _, _, h =>
    pollWorld_requests_congr std c articleID n _ _
      (GetArticle_requests_congr std c articleID h)

theorem nthPoll_congr (std : Stdlib) (c : Client) (articleID : String) {w v : World}
    (h : w.requests = v.requests) (i : Nat) :
    nthPoll std c articleID w i = nthPoll std c articleID v i :=
  GetArticle_result_congr std c articleID (pollWorld_requests_congr std c articleID i w v h)

theorem nthPoll_zero (std : Stdlib) (c : Client) (articleID : String) (w : World) :
    nthPoll std c articleID w 0 = (GetArticle std c articleID w).1 := rfl

theorem nthPoll_succ (std : Stdlib) (c : Client) (articleID : String) (w : World) (i : Nat) :
    nthPoll std c articleID w (i + 1) =
      nthPoll std c articleID (GetArticle std c articleID w).2 i := rfl

theorem pollWorld_getCalls (std : Stdlib) (c : Client) (articleID : String) :
    ∀ (n : Nat) (w : World), (pollWorld std c articleID n w).getCalls = w.getCalls + n
  | 0, _ => rfl
  | n + 1, w => by
    rw [pollWorld, pollWorld_getCalls std c articleID n, GetArticle_getCalls]
    omega

theorem observed_zero (o : GenerateAndWaitOptions) (a : Int) (f : Nat → Result Article) :
    observed o a f 0 = [] := by
  unfold observed
  split <;> rfl

theorem observed_succ (o : GenerateAndWaitOptions) (a : Int) (f : Nat → Result Article)
    (k : Nat) :
    observed o a f (k + 1) =
      (if o.OnProgress then [(a, (f 0).status)] else []) ++
        observed o (a + 1) (fun i => f (i + 1)) k := by
  unfold observed
  by_cases h : o.OnProgress
  · simp only [h, if_true, List.range_succ_eq_map, List.map_cons, List.map_map,
      List.singleton_append, Nat.cast_zero, add_zero, List.cons.injEq, true_and]
    apply List.map_congr_left
    intro i _
    simp only [Function.comp, Nat.cast_succ, Prod.mk.injEq, and_true]
    omega
  · simp [h]

theorem observed_length (o : GenerateAndWaitOptions) (a : Int) (f : Nat → Result Article)
    (k : Nat) : (observed o a f k).length = if o.OnProgress then k else 0 := by
  unfold observed
  split <;> simp

/-! ## One iteration of the loop of `WaitForArticle` -/

theorem waitLoop_exit (std : Stdlib) (c : Client) (articleID : String)
    (o : GenerateAndWaitOptions) (n : Nat) (a : Int) (w : World) (h : ¬ a ≤ o.MaxAttempts) :
    waitLoop std c articleID o n a w = (.err (generationTimeout o.MaxAttempts), w) := by
  cases n with
  | zero => rfl
  | succ n => rw [waitLoop, if_neg h]

theorem waitLoop_err (std : Stdlib) (c : Client) (articleID : String)
    (o : GenerateAndWaitOptions) (n : Nat) (a : Int) (w w1 : World) (e : Error)
    (ha : a ≤ o.MaxAttempts) (hg : GetArticle std c articleID w = (.err e, w1)) :
    waitLoop std c articleID o (n + 1) a w = (.err e, w1) := by
  rw [waitLoop, if_pos ha, hg]

theorem waitLoop_finished (std : Stdlib) (c : Client) (articleID : String)
    (o : GenerateAndWaitOptions) (n : Nat) (a : Int) (w w1 : World) (s : Article)
    (ha : a ≤ o.MaxAttempts) (hg : GetArticle std c articleID w = (.ok s, w1))
    (hs : s.Status = "finished") :
    waitLoop std c articleID o (n + 1) a w =
      (.ok s, { w1 with
        progress := w1.progress ++ (if o.OnProgress then [(a, s.Status)] else []) }) := by
  rw [waitLoop, if_pos ha, hg]
  simp only [hs, if_true]
  cases o.OnProgress <;> simp

theorem waitLoop_failed (std : Stdlib) (c : Client) (articleID : String)
    (o : GenerateAndWaitOptions) (n : Nat) (a : Int) (w w1 : World) (s : Article)
    (ha : a ≤ o.MaxAttempts) (hg : GetArticle std c articleID w = (.ok s, w1))
    (hs : s.Status = "failed") :
    waitLoop std c articleID o (n + 1) a w =
      (.err (generationFailed s.ErrorMessage), { w1 with
        progress := w1.progress ++ (if o.OnProgress then [(a, s.Status)] else []) }) := by
  rw [waitLoop, if_pos ha, hg]
  have h1 : ¬ s.Status = "finished" := by rw [hs]; decide
  simp only [h1, if_false]
  simp only [hs, if_true]
  cases o.OnProgress <;> simp

theorem waitLoop_continue (std : Stdlib) (c : Client) (articleID : String)
    (o : GenerateAndWaitOptions) (n : Nat) (a : Int) (w w1 : World) (s : Article)
    (ha : a ≤ o.MaxAttempts) (hg : GetArticle std c articleID w = (.ok s, w1))
    (h1 : s.Status ≠ "finished") (h2 : s.Status ≠ "failed") :
    waitLoop std c articleID o (n + 1) a w =
      waitLoop std c articleID o n (a + 1)
        { w1 with
          progress := w1.progress ++ (if o.OnProgress then [(a, s.Status)] else []),
          sleeps := w1.sleeps ++
            (if (s.Status = "pending" ∨ s.Status = "processing") ∧ a < o.MaxAttempts then
              [o.Interval] else []) } := by
  rw [waitLoop, if_pos ha, hg]
  simp only [if_neg h1, if_neg h2]
  by_cases hp : s.Status = "pending" ∨ s.Status = "processing" <;>
  by_cases hlt : a < o.MaxAttempts <;>
  cases o.OnProgress <;> simp [hp, hlt]

/-! ## The loop as a whole -/

/-- Every run of the loop that starts with as many iterations as the bound allows is
summarised by `LoopRun` for some number of retrievals. -/
theorem waitLoop_run (std : Stdlib) (c : Client) (articleID : String)
    (o : GenerateAndWaitOptions) :
    ∀ (n : Nat) (a : Int) (w : World), n = (o.MaxAttempts + 1 - a).toNat →
      ∃ k, LoopRun std c articleID o n a w (waitLoop std c articleID o n a w) k := by
  intro n
  induction n with
  | zero =>
    intro a w _
    refine ⟨0, le_refl 0, rfl, rfl, rfl, fun i hi => absurd hi (by omega), Or.inl ?_⟩
    refine ⟨rfl, fun i hi => absurd hi (by omega), rfl, ?_⟩
    rw [observed_zero, List.append_nil]
    rfl
  | succ n ih =>
    intro a w hn
    have ha : a ≤ o.MaxAttempts := by omega
    have hn1 : n = (o.MaxAttempts + 1 - (a + 1)).toNat := by omega
    rcases hg : GetArticle std c articleID w with ⟨r, w1⟩
    have hw1 : (GetArticle std c articleID w).2 = w1 := by rw [hg]
    have hcalls : w1.getCalls = w.getCalls + 1 := by
      rw [← hw1]; exact GetArticle_getCalls std c articleID w
    have hgen : w1.generateCalls = w.generateCalls := by
      rw [← hw1]; exact GetArticle_generateCalls std c articleID w
    have hprog : w1.progress = w.progress := by
      rw [← hw1]; exact GetArticle_progress std c articleID w
    have hreq : (pollWorld std c articleID 1 w).requests = w1.requests := by
      rw [← hw1]; rfl
    cases r with
    | err e =>
      have h0 : nthPoll std c articleID w 0 = .err e := by rw [nthPoll_zero, hg]
      rw [waitLoop_err std c articleID o n a w w1 e ha hg]
      refine ⟨1, by omega, hcalls, hgen, hreq.symm, fun i hi => absurd hi (by omega), ?_⟩
      refine Or.inr (Or.inr (Or.inr ⟨0, e, rfl, h0, rfl, ?_⟩))
      rw [observed_zero, List.append_nil]
      exact hprog
    | ok s =>
      have h0 : nthPoll std c articleID w 0 = .ok s := by rw [nthPoll_zero, hg]
      have hobs1 : observed o a (nthPoll std c articleID w) 1 =
          (if o.OnProgress then [(a, s.Status)] else []) := by
        rw [observed_succ, observed_zero, List.append_nil, h0]
        rfl
      by_cases hfin : s.Status = "finished"
      · rw [waitLoop_finished std c articleID o n a w w1 s ha hg hfin]
        refine ⟨1, by omega, hcalls, hgen, hreq.symm, fun i hi => absurd hi (by omega), ?_⟩
        refine Or.inr (Or.inl ⟨0, s, rfl, h0, hfin, rfl, ?_⟩)
        rw [hobs1, ← hprog]
      · by_cases hfail : s.Status = "failed"
        · rw [waitLoop_failed std c articleID o n a w w1 s ha hg hfail]
          refine ⟨1, by omega, hcalls, hgen, hreq.symm, fun i hi => absurd hi (by omega), ?_⟩
          refine Or.inr (Or.inr (Or.inl ⟨0, s, rfl, h0, hfail, rfl, ?_⟩))
          rw [hobs1, ← hprog]
        · rw [waitLoop_continue std c articleID o n a w w1 s ha hg hfin hfail]
          generalize hw3 : ({ w1 with
            progress := w1.progress ++ (if o.OnProgress then [(a, s.Status)] else []),
            sleeps := w1.sleeps ++
              (if (s.Status = "pending" ∨ s.Status = "processing") ∧ a < o.MaxAttempts then
                [o.Interval] else []) } : World) = w3
          have e1 : w3.requests = w1.requests := by rw [← hw3]
          have e2 : w3.getCalls = w1.getCalls := by rw [← hw3]
          have e3 : w3.generateCalls = w1.generateCalls := by rw [← hw3]
          have e4 : w3.progress =
              w.progress ++ (if o.OnProgress then [(a, s.Status)] else []) := by
            rw [← hw3, ← hprog]
          have hshift : (fun i => nthPoll std c articleID w (i + 1)) =
              nthPoll std c articleID w3 := by
            funext i
            rw [nthPoll_succ, hw1]
            exact (nthPoll_congr std c articleID e1 i).symm
          have hobs : ∀ k, w.progress ++ observed o a (nthPoll std c articleID w) (k + 1) =
              w3.progress ++ observed o (a + 1) (nthPoll std c articleID w3) k := by
            intro k
            rw [observed_succ, hshift, e4, h0, List.append_assoc]
            rfl
          have hnt : (nthPoll std c articleID w 0).nonTerminal := by
            rw [h0]; exact ⟨hfin, hfail⟩
          have hpre : ∀ k, (∀ i, i < k → (nthPoll std c articleID w3 i).nonTerminal) →
              ∀ i, i < k + 1 → (nthPoll std c articleID w i).nonTerminal := by
            intro k hk i hi
            cases i with
            | zero => exact hnt
            | succ i =>
              have := hk i (by omega)
              rw [← hshift] at this
              exact this
          obtain ⟨k, hk, hc, hgc, hrq, hpr, hcase⟩ := ih (a + 1) w3 hn1
          refine ⟨k + 1, by omega, by rw [hc, e2, hcalls]; omega, by rw [hgc, e3, hgen], ?_,
            ?_, ?_⟩
          · rw [hrq]
            show _ = (pollWorld std c articleID k (GetArticle std c articleID w).2).requests
            rw [hw1]
            exact pollWorld_requests_congr std c articleID k w3 w1 e1
          · intro i hi
            exact hpre (k - 1) (fun i hi2 => hpr i (by omega)) i (by omega)
          · rcases hcase with ⟨hkn, hall, hres, hp⟩ | ⟨j, t, hkj, hj, hst, hres, hp⟩ |
              ⟨j, t, hkj, hj, hst, hres, hp⟩ | ⟨j, e, hkj, hj, hres, hp⟩
            · exact Or.inl ⟨by omega, hpre k hall, hres, by rw [hp, hobs]⟩
            · refine Or.inr (Or.inl ⟨j + 1, t, by omega, ?_, hst, hres, by rw [hp, hobs]⟩)
              rw [← hj, ← hshift]
            · refine Or.inr (Or.inr (Or.inl ⟨j + 1, t, by omega, ?_, hst, hres,
                by rw [hp, hobs]⟩))
              rw [← hj, ← hshift]
            · refine Or.inr (Or.inr (Or.inr ⟨j + 1, e, by omega, ?_, hres, by rw [hp, hobs]⟩))
              rw [← hj, ← hshift]

/-- `WaitForArticle` is summarised by `LoopRun` for the number of retrievals it made. -/
theorem WaitForArticle_run (std : Stdlib) (c : Client) (articleID : String)
    (options : Option GenerateAndWaitOptions) (w : World) :
    LoopRun std c articleID (WaitForArticle.effective options)
      (WaitForArticle.effective options).MaxAttempts.toNat 1 w
      (WaitForArticle std c articleID options w)
      (retrievals w (WaitForArticle std c articleID options w).2) := by
  obtain ⟨k, hk⟩ := waitLoop_run std c articleID (WaitForArticle.effective options)
    (WaitForArticle.effective options).MaxAttempts.toNat 1 w (by omega)
  have hk2 : LoopRun std c articleID (WaitForArticle.effective options)
      (WaitForArticle.effective options).MaxAttempts.toNat 1 w
      (WaitForArticle std c articleID options w) k := hk
  have hr : retrievals w (WaitForArticle std c articleID options w).2 = k := by
    unfold retrievals
    rw [hk2.2.1]
    omega
  rw [hr]
  exact hk2

/-- The number of iterations handed to the loop is no restriction: any larger number
gives the same run, so the loop of the model ends by the loop condition of the code and
never for want of iterations. -/
theorem waitLoop_fuel (std : Stdlib) (c : Client) (articleID : String)
    (o : GenerateAndWaitOptions) :
    ∀ (n m : Nat) (a : Int) (w : World), (o.MaxAttempts + 1 - a).toNat ≤ n → n ≤ m →
      waitLoop std c articleID o m a w = waitLoop std c articleID o n a w := by
  intro n
  induction n with
  | zero =>
    intro m a w h _
    have ha : ¬ a ≤ o.MaxAttempts := by omega
    rw [waitLoop_exit std c articleID o m a w ha, waitLoop_exit std c articleID o 0 a w ha]
  | succ n ih =>
    intro m a w h hm
    obtain ⟨m, rfl⟩ : ∃ m1, m = m1 + 1 := ⟨m - 1, by omega⟩
    by_cases ha : a ≤ o.MaxAttempts
    · have h1 : (o.MaxAttempts + 1 - (a + 1)).toNat ≤ n := by omega
      rw [waitLoop, waitLoop, if_pos ha, if_pos ha]
      rcases GetArticle std c articleID w with ⟨r, w1⟩
      cases r with
      | err e => rfl
      | ok s =>
        simp only [ih m (a + 1) _ h1 (by omega)]
    · rw [waitLoop_exit std c articleID o _ a w ha, waitLoop_exit std c articleID o _ a w ha]

theorem Result.nonTerminal_ok {r : Result Article} {a : Article} (h : r.nonTerminal)
    (hr : r = .ok a) : a.Status ≠ "finished" ∧ a.Status ≠ "failed" := by
  subst hr
  exact h

theorem Result.nonTerminal_not_err {r : Result Article} {e : Error} (h : r.nonTerminal) :
    r ≠ .err e := by
  intro hr
  subst hr
  exact h

theorem Result.inProgress_nonTerminal {r : Result Article} (h : r.inProgress) :
    r.nonTerminal := by
  cases r with
  | err e => exact h
  | ok a =>
    rcases h with h | h
    · exact ⟨by rw [h]; decide, by rw [h]; decide⟩
    · exact ⟨by rw [h]; decide, by rw [h]; decide⟩

/-- The two errors `WaitForArticle` makes itself have different texts. -/
theorem generationTimeout_ne_generationFailed (maxAttempts : Int) (message : String) :
    generationTimeout maxAttempts ≠ generationFailed message := by
  unfold generationTimeout generationFailed
  intro h
  have h2 := congrArg String.data (Error.errorString.inj h)
  simp only [String.data_append] at h2
  simp at h2

/-- The message a generation-failure error carries is determined by the error. -/
theorem generationFailed_injective {m1 m2 : String}
    (h : generationFailed m1 = generationFailed m2) : m1 = m2 := by
  unfold generationFailed at h
  have h2 := congrArg String.data (Error.errorString.inj h)
  simp only [String.data_append] at h2
  exact String.ext (List.append_cancel_left h2)

/-- `GetArticle` never fails with an error that is only a text: its errors are a
`*ValidationError`, an `*APIError` or an error that wraps another one. -/
theorem GetArticle_err_ne_errorString (std : Stdlib) (c : Client) (articleID : String)
    (w : World) (text : String) :
    (GetArticle std c articleID w).1 ≠ .err (.errorString text) := by
  unfold GetArticle makeRequest
  by_cases hid : articleID = ""
  · simp [hid]
  · simp only [hid, if_false, Option.map_none']
    rcases std.NewRequest "GET" (c.baseURL ++ ("/articles/" ++ articleID)) with _ | e2
    · simp only []
      rcases c.httpClient.Do _ _ with e | resp
      · simp
      · simp only []
        rcases resp.ReadErr with _ | e
        · simp only []
          by_cases hs : resp.StatusCode ≠ 200
          · rw [if_pos hs]; simp
          · rw [if_neg hs]
            rcases std.UnmarshalArticle resp.Body with e | a <;> simp
        · simp
    · simp

theorem nthPoll_ne_errorString (std : Stdlib) (c : Client) (articleID : String)
    (w : World) (i : Nat) (text : String) :
    nthPoll std c articleID w i ≠ .err (.errorString text) :=
  GetArticle_err_ne_errorString std c articleID _ text

/-! ## Claims about `WaitForArticle` -/

/-- C1: `WaitForArticle` succeeds if and only if one of the snapshots it polled has status
`finished`; the article it returns is then that snapshot, which is the last retrieval
made, no earlier one being terminal, so that the number of retrievals is its position in
the scripted sequence.  With the statuses pending, processing, finished and five attempts
allowed it returns the finished snapshot after exactly three retrievals. -/
theorem WaitForArticle_success_iff_finished (std : Stdlib) (c : Client) (articleID : String)
    (options : Option GenerateAndWaitOptions) (w : World) :
    let out := WaitForArticle std c articleID options w
    let n := retrievals w out.2
    ((∃ a, out.1 = .ok a) ↔
      ∃ i a, i < n ∧ nthPoll std c articleID w i = .ok a ∧ a.Status = "finished") ∧
    (∀ a, out.1 = .ok a →
      1 ≤ n ∧ nthPoll std c articleID w (n - 1) = .ok a ∧ a.Status = "finished" ∧
      ∀ i, i + 1 < n → (nthPoll std c articleID w i).nonTerminal) ∧
    (let run := WaitForArticle scriptStd
        (scriptClient [okBody "pending", okBody "processing", okBody "finished"]) "A1"
        (some { MaxAttempts := 5, Interval := 0, OnProgress := true }) World.initial
     run.1 = .ok (snapshot "finished" "") ∧ retrievals World.initial run.2 = 3) := by
  intro out n
  have hrun : LoopRun std c articleID (WaitForArticle.effective options)
      (WaitForArticle.effective options).MaxAttempts.toNat 1 w out n :=
    WaitForArticle_run std c articleID options w
  obtain ⟨_, _, _, _, hpre, hcase⟩ := hrun
  have hearly : ∀ i a, i + 1 < n → nthPoll std c articleID w i = .ok a →
      a.Status ≠ "finished" := fun i a hi hp => (Result.nonTerminal_ok (hpre i hi) hp).1
  refine ⟨?_, ?_, by decide⟩
  · rcases hcase with ⟨_, hall, hres, _⟩ | ⟨j, s, hkj, hj, hst, hres, _⟩ |
      ⟨j, s, hkj, hj, hst, hres, _⟩ | ⟨j, e, hkj, hj, hres, _⟩
    · constructor
      · rintro ⟨a, ha⟩
        rw [hres] at ha
        cases ha
      · rintro ⟨i, a, hi, hp, hfin⟩
        exact absurd hfin (Result.nonTerminal_ok (hall i hi) hp).1
    · constructor
      · intro _
        exact ⟨j, s, by omega, hj, hst⟩
      · intro _
        exact ⟨s, hres⟩
    · constructor
      · rintro ⟨a, ha⟩
        rw [hres] at ha
        cases ha
      · rintro ⟨i, a, hi, hp, hfin⟩
        by_cases hij : i = j
        · subst hij
          rw [hj] at hp
          cases hp
          rw [hst] at hfin
          exact absurd hfin (by decide)
        · exact absurd hfin (hearly i a (by omega) hp)
    · constructor
      · rintro ⟨a, ha⟩
        rw [hres] at ha
        cases ha
      · rintro ⟨i, a, hi, hp, hfin⟩
        by_cases hij : i = j
        · subst hij
          rw [hj] at hp
          cases hp
        · exact absurd hfin (hearly i a (by omega) hp)
  · intro a ha
    rcases hcase with ⟨_, _, hres, _⟩ | ⟨j, s, hkj, hj, hst, hres, _⟩ |
      ⟨j, s, _, _, _, hres, _⟩ | ⟨j, e, _, _, hres, _⟩
    · rw [hres] at ha
      cases ha
    · rw [hres] at ha
      cases ha
      refine ⟨by omega, ?_, hst, hpre⟩
      have hn1 : n - 1 = j := by omega
      rw [hn1]
      exact hj
    · rw [hres] at ha
      cases ha
    · rw [hres] at ha
      cases ha

/-- C2: `WaitForArticle` fails with a generation-failure error if and only if one of the
snapshots it polled has status `failed`; the error is then the generation-failure error
made of the error message of that snapshot, which is the only message the error carries,
and that snapshot is the last retrieval made. -/
theorem WaitForArticle_failure_iff_failed (std : Stdlib) (c : Client) (articleID : String)
    (options : Option GenerateAndWaitOptions) (w : World) :
    let out := WaitForArticle std c articleID options w
    let n := retrievals w out.2
    ((∃ message, out.1 = .err (generationFailed message)) ↔
      ∃ i a, i < n ∧ nthPoll std c articleID w i = .ok a ∧ a.Status = "failed") ∧
    (∀ i a, i < n → nthPoll std c articleID w i = .ok a → a.Status = "failed" →
      out.1 = .err (generationFailed a.ErrorMessage) ∧ n = i + 1) ∧
    (∀ message i a, out.1 = .err (generationFailed message) → i < n →
      nthPoll std c articleID w i = .ok a → a.Status = "failed" →
      message = a.ErrorMessage) := by
  intro out n
  have hrun : LoopRun std c articleID (WaitForArticle.effective options)
      (WaitForArticle.effective options).MaxAttempts.toNat 1 w out n :=
    WaitForArticle_run std c articleID options w
  obtain ⟨_, _, _, _, hpre, hcase⟩ := hrun
  have hearly : ∀ i a, i + 1 < n → nthPoll std c articleID w i = .ok a →
      a.Status ≠ "failed" := fun i a hi hp => (Result.nonTerminal_ok (hpre i hi) hp).2
  have key : ∀ i a, i < n → nthPoll std c articleID w i = .ok a → a.Status = "failed" →
      out.1 = .err (generationFailed a.ErrorMessage) ∧ n = i + 1 := by
    intro i a hi hp hfail
    rcases hcase with ⟨_, hall, _, _⟩ | ⟨j, s, hkj, hj, hst, _, _⟩ |
      ⟨j, s, hkj, hj, hst, hres, _⟩ | ⟨j, e, hkj, hj, _, _⟩
    · exact absurd hfail (Result.nonTerminal_ok (hall i hi) hp).2
    · by_cases hij : i = j
      · subst hij
        rw [hj] at hp
        cases hp
        rw [hst] at hfail
        exact absurd hfail (by decide)
      · exact absurd hfail (hearly i a (by omega) hp)
    · by_cases hij : i = j
      · subst hij
        rw [hj] at hp
        cases hp
        exact ⟨hres, hkj⟩
      · exact absurd hfail (hearly i a (by omega) hp)
    · by_cases hij : i = j
      · subst hij
        rw [hj] at hp
        cases hp
      · exact absurd hfail (hearly i a (by omega) hp)
  refine ⟨⟨?_, ?_⟩, key, fun message i a hm hi hp hfail =>
    generationFailed_injective (Result.err.inj (hm.symm.trans (key i a hi hp hfail).1))⟩
  · rintro ⟨message, hm⟩
    rcases hcase with ⟨_, _, hres, _⟩ | ⟨j, s, _, _, _, hres, _⟩ |
      ⟨j, s, hkj, hj, hst, _, _⟩ | ⟨j, e, _, hj, hres, _⟩
    · rw [hres] at hm
      exact absurd (Result.err.inj hm) (generationTimeout_ne_generationFailed _ _)
    · rw [hres] at hm
      cases hm
    · exact ⟨j, s, by omega, hj, hst⟩
    · rw [hres] at hm
      cases hm
      exact absurd hj (nthPoll_ne_errorString std c articleID w j _)
  · rintro ⟨i, a, hi, hp, hfail⟩
    exact ⟨a.ErrorMessage, (key i a hi hp hfail).1⟩

/-- Witness of `WaitForArticle_failure_iff_failed`: the remote end answers `pending` and
then `failed` with the error message `quota exceeded`. -/
theorem WaitForArticle_failure_iff_failed_witness :
    (WaitForArticle scriptStd (scriptClient [okBody "pending", okBody "failed"]) "A1"
      (some { MaxAttempts := 5, Interval := 0, OnProgress := false }) World.initial).1 =
      .err (.errorString "article generation failed: quota exceeded") ∧
    retrievals World.initial
      (WaitForArticle scriptStd (scriptClient [okBody "pending", okBody "failed"]) "A1"
        (some { MaxAttempts := 5, Interval := 0, OnProgress := false }) World.initial).2 = 2 :=
  (WaitForArticle_failure_iff_failed scriptStd
    (scriptClient [okBody "pending", okBody "failed"]) "A1"
    (some { MaxAttempts := 5, Interval := 0, OnProgress := false }) World.initial).2.1
    1 (snapshot "failed" "quota exceeded") (by decide) rfl rfl

/-- C3: when at least one attempt is allowed and each of the first `MaxAttempts`
retrievals succeeds with a snapshot whose status is `pending` or `processing`,
`WaitForArticle` makes exactly `MaxAttempts` retrievals and fails with the timeout error
that reports `MaxAttempts`; an observer, when supplied, has been invoked once per
retrieval, in order, the invocation number `i` with `i` and the status of the snapshot
number `i`. -/
theorem WaitForArticle_timeout (std : Stdlib) (c : Client) (articleID : String)
    (o : GenerateAndWaitOptions) (w : World) (hmax : 1 ≤ o.MaxAttempts)
    (hall : ∀ i : Nat, (i : Int) < o.MaxAttempts → (nthPoll std c articleID w i).inProgress) :
    let out := WaitForArticle std c articleID (some o) w
    out.1 = .err (.errorString
      ("article generation timeout after " ++ toString o.MaxAttempts ++ " attempts")) ∧
    (retrievals w out.2 : Int) = o.MaxAttempts ∧
    out.2.progress = w.progress ++
      (if o.OnProgress then
        (List.range o.MaxAttempts.toNat).map fun (i : Nat) =>
          (1 + (i : Int), (nthPoll std c articleID w i).status)
      else []) := by
  intro out
  have hrun : LoopRun std c articleID o o.MaxAttempts.toNat 1 w out (retrievals w out.2) :=
    WaitForArticle_run std c articleID (some o) w
  obtain ⟨hk, _, _, _, _, hcase⟩ := hrun
  have hnt : ∀ i, i < retrievals w out.2 → (nthPoll std c articleID w i).nonTerminal :=
    fun i hi => Result.inProgress_nonTerminal (hall i (by omega))
  rcases hcase with ⟨hkn, _, hres, hp⟩ | ⟨j, s, hkj, hj, hst, _, _⟩ |
    ⟨j, s, hkj, hj, hst, _, _⟩ | ⟨j, e, hkj, hj, _, _⟩
  · refine ⟨hres, by omega, ?_⟩
    rw [hp]
    show _ = w.progress ++ observed o 1 (nthPoll std c articleID w) o.MaxAttempts.toNat
    rw [← hkn]
  · exact absurd hst (Result.nonTerminal_ok (hnt j (by omega)) hj).1
  · exact absurd hst (Result.nonTerminal_ok (hnt j (by omega)) hj).2
  · exact absurd hj (Result.nonTerminal_not_err (hnt j (by omega)))

/-- C8: when the retrieval number `k` fails with the error `e`, no earlier retrieval
having failed or given a terminal snapshot, and `k` is within the attempts allowed,
`WaitForArticle` returns `e` itself after exactly `k` retrievals and the observer, when
supplied, has been invoked for the `k - 1` earlier attempts only. -/
theorem WaitForArticle_retrieval_error (std : Stdlib) (c : Client) (articleID : String)
    (o : GenerateAndWaitOptions) (w : World) (k : Nat) (e : Error)
    (hk1 : 1 ≤ k) (hkmax : (k : Int) ≤ o.MaxAttempts)
    (hearlier : ∀ i, i + 1 < k → (nthPoll std c articleID w i).nonTerminal)
    (hfails : nthPoll std c articleID w (k - 1) = .err e) :
    let out := WaitForArticle std c articleID (some o) w
    out.1 = .err e ∧ retrievals w out.2 = k ∧
    out.2.progress = w.progress ++
      (if o.OnProgress then
        (List.range (k - 1)).map fun (i : Nat) =>
          (1 + (i : Int), (nthPoll std c articleID w i).status)
      else []) := by
  intro out
  have hrun : LoopRun std c articleID o o.MaxAttempts.toNat 1 w out (retrievals w out.2) :=
    WaitForArticle_run std c articleID (some o) w
  obtain ⟨_, _, _, _, hpre, hcase⟩ := hrun
  rcases hcase with ⟨hkn, hall, _, _⟩ | ⟨j, s, hkj, hj, hst, _, _⟩ |
    ⟨j, s, hkj, hj, hst, _, _⟩ | ⟨j, e2, hkj, hj, hres, hp⟩
  · exact absurd hfails (Result.nonTerminal_not_err (hall (k - 1) (by omega)))
  · by_cases hjk : j + 1 < k
    · exact absurd hst (Result.nonTerminal_ok (hearlier j hjk) hj).1
    · by_cases hkj2 : k - 1 = j
      · rw [hkj2, hj] at hfails
        cases hfails
      · exact absurd hfails (Result.nonTerminal_not_err (hpre (k - 1) (by omega)))
  · by_cases hjk : j + 1 < k
    · exact absurd hst (Result.nonTerminal_ok (hearlier j hjk) hj).2
    · by_cases hkj2 : k - 1 = j
      · rw [hkj2, hj] at hfails
        cases hfails
      · exact absurd hfails (Result.nonTerminal_not_err (hpre (k - 1) (by omega)))
  · by_cases hjk : j + 1 < k
    · exact absurd hj (Result.nonTerminal_not_err (hearlier j hjk))
    · by_cases hkj2 : k - 1 = j
      · rw [hkj2, hj] at hfails
        cases hfails
        refine ⟨hres, by omega, ?_⟩
        rw [hp, ← hkj2]
        rfl
      · exact absurd hfails (Result.nonTerminal_not_err (hpre (k - 1) (by omega)))

/-- Witness of `WaitForArticle_timeout`: two attempts allowed, the remote end answers
`pending` and then `processing`. -/
theorem WaitForArticle_timeout_witness :
    (1 : Int) ≤ 2 ∧
    (∀ i : Nat, (i : Int) < 2 →
      (nthPoll scriptStd (scriptClient [okBody "pending", okBody "processing"]) "A1"
        World.initial i).inProgress) ∧
    (WaitForArticle scriptStd (scriptClient [okBody "pending", okBody "processing"]) "A1"
      (some { MaxAttempts := 2, Interval := 0, OnProgress := true }) World.initial).1 =
      .err (.errorString "article generation timeout after 2 attempts") ∧
    retrievals World.initial
      (WaitForArticle scriptStd (scriptClient [okBody "pending", okBody "processing"]) "A1"
        (some { MaxAttempts := 2, Interval := 0, OnProgress := true }) World.initial).2 = 2 ∧
    (WaitForArticle scriptStd (scriptClient [okBody "pending", okBody "processing"]) "A1"
      (some { MaxAttempts := 2, Interval := 0, OnProgress := true }) World.initial).2.progress =
      [(1, "pending"), (2, "processing")] := by
  have hall : ∀ i : Nat, (i : Int) < 2 →
      (nthPoll scriptStd (scriptClient [okBody "pending", okBody "processing"]) "A1"
        World.initial i).inProgress := by
    intro i hi
    have h01 : i = 0 ∨ i = 1 := by omega
    rcases h01 with rfl | rfl
    · exact Or.inl rfl
    · exact Or.inr rfl
  have h := WaitForArticle_timeout scriptStd
    (scriptClient [okBody "pending", okBody "processing"]) "A1"
    { MaxAttempts := 2, Interval := 0, OnProgress := true } World.initial (by decide) hall
  exact ⟨by decide, hall, h.1, Int.ofNat.inj h.2.1, h.2.2⟩

/-- Witness of `WaitForArticle_retrieval_error`: the first retrieval gives a `pending`
snapshot and the transport fails on the second. -/
theorem WaitForArticle_retrieval_error_witness :
    (WaitForArticle scriptStd (scriptClient [okBody "pending", .error "connection refused"])
      "A1" (some { MaxAttempts := 5, Interval := 0, OnProgress := true }) World.initial).1 =
      .err (.wrapError "request failed: connection refused" "connection refused") ∧
    retrievals World.initial
      (WaitForArticle scriptStd (scriptClient [okBody "pending", .error "connection refused"])
        "A1" (some { MaxAttempts := 5, Interval := 0, OnProgress := true })
        World.initial).2 = 2 ∧
    (WaitForArticle scriptStd (scriptClient [okBody "pending", .error "connection refused"])
      "A1" (some { MaxAttempts := 5, Interval := 0, OnProgress := true })
      World.initial).2.progress = [(1, "pending")] :=
  WaitForArticle_retrieval_error scriptStd
    (scriptClient [okBody "pending", .error "connection refused"]) "A1"
    { MaxAttempts := 5, Interval := 0, OnProgress := true } World.initial 2
    (.wrapError "request failed: connection refused" "connection refused")
    (by decide) (by decide)
    (fun i hi => by
      have h0 : i = 0 := by omega
      subst h0
      exact ⟨by decide, by decide⟩)
    rfl

/-! ## Claims about the resource operations -/

/-- C4: `GenerateArticle` with an empty target keyword, and `GetArticle` and
`DeleteArticle` with an empty article id, fail with the `ValidationError` of the field
concerned, whatever the other arguments, the client and the surroundings, and leave the
request log as it was: no request reaches the network. -/
theorem empty_identifier_rejected (std : Stdlib) (c : Client)
    (options : Option GenerateArticleRequest) (w : World) :
    ((GenerateArticle std c "" options w).1 =
        .err (.validation { Field := "targetKeyword", Message := "target keyword is required" }) ∧
      (GenerateArticle std c "" options w).2.requests = w.requests) ∧
    ((GetArticle std c "" w).1 =
        .err (.validation { Field := "articleID", Message := "article ID is required" }) ∧
      (GetArticle std c "" w).2.requests = w.requests) ∧
    ((DeleteArticle std c "" w).1 =
        some (.validation { Field := "articleID", Message := "article ID is required" }) ∧
      (DeleteArticle std c "" w).2.requests = w.requests) :=
  ⟨⟨rfl, rfl⟩, ⟨rfl, rfl⟩, ⟨rfl, rfl⟩⟩

/-- C5: for a non-empty target keyword, the only request `GenerateArticle` performs is a
`POST` whose body has the target keyword of the argument, whatever keyword `options`
carries, and the four groups of `options` (none of them when `options` is nil).  The
request is performed whenever the body can be marshalled and `http.NewRequest` accepts
the URL; otherwise none is. -/
theorem GenerateArticle_request_body (std : Stdlib) (c : Client) (targetKeyword : String)
    (options : Option GenerateArticleRequest) (w : World) (hkw : targetKeyword ≠ "") :
    let body : GenerateArticleRequest :=
      { TargetKeyword := targetKeyword,
        Generation := options.bind fun o => o.Generation,
        SEO := options.bind fun o => o.SEO,
        Writing := options.bind fun o => o.Writing,
        Advanced := options.bind fun o => o.Advanced }
    (GenerateArticle std c targetKeyword options w).2.requests =
      w.requests ++
        (match std.Marshal body, std.NewRequest "POST" (c.baseURL ++ "/generate-article") with
          | .ok _, none =>
            [{ Method := "POST", URL := c.baseURL ++ "/generate-article",
               Header := [("Content-Type", "application/json"),
                          ("Authorization", "Bearer " ++ c.apiKey)],
               Body := some body }]
          | _, _ => []) := by
  intro body
  have hbody : (match options with
      | none =>
        ({ TargetKeyword := targetKeyword, Generation := none, SEO := none, Writing := none,
           Advanced := none } : GenerateArticleRequest)
      | some o =>
        { TargetKeyword := targetKeyword, Generation := o.Generation, SEO := o.SEO,
          Writing := o.Writing, Advanced := o.Advanced }) = body := by
    cases options <;> rfl
  unfold GenerateArticle makeRequest
  simp only [if_neg hkw, hbody, Option.map_some']
  rcases std.Marshal body with e | m
  · simp
  · simp only []
    rcases std.NewRequest "POST" (c.baseURL ++ "/generate-article") with _ | e2
    · simp only []
      rcases c.httpClient.Do _ _ with e | resp
      · simp
      · simp only []
        rcases resp.ReadErr with _ | e
        · simp only []
          by_cases hs : resp.StatusCode ≠ 200
          · rw [if_pos hs]
          · rw [if_neg hs]
            rcases std.UnmarshalGenerateArticleResponse resp.Body with e | r <;> rfl
        · rfl
    · simp

/-- Witness of `GenerateArticle_request_body`: the keyword `x` is passed together with
options that carry the keyword `y` and a writing group. -/
theorem GenerateArticle_request_body_witness :
    "x" ≠ "" ∧
    (GenerateArticle scriptStd (scriptClient [okBody "ack"]) "x"
      (some { TargetKeyword := "y", Generation := none, SEO := none,
              Writing := some { Style := "professional", Tone := "", Length := "long",
                                IncludeImages := true, ImageStyle := "" },
              Advanced := none }) World.initial).2.requests =
      [{ Method := "POST", URL := "https://semanticpen.vercel.app/api/generate-article",
         Header := [("Content-Type", "application/json"), ("Authorization", "Bearer key")],
         Body := some
           { TargetKeyword := "x", Generation := none, SEO := none,
             Writing := some { Style := "professional", Tone := "", Length := "long",
                               IncludeImages := true, ImageStyle := "" },
             Advanced := none } }] :=
  ⟨by decide,
    GenerateArticle_request_body scriptStd (scriptClient [okBody "ack"]) "x"
      (some { TargetKeyword := "y", Generation := none, SEO := none,
              Writing := some { Style := "professional", Tone := "", Length := "long",
                                IncludeImages := true, ImageStyle := "" },
              Advanced := none }) World.initial (by decide)⟩

/-- C6: for a non-empty article id and any response the transport returns,
`DeleteArticle` returns no error if and only if the status is 200 or 204; for every other
status it returns the API error translated from the response, whose status code is the
status of the response. -/
theorem DeleteArticle_status (std : Stdlib) (c : Client) (articleID : String) (w w1 : World)
    (resp : Response) (hid : articleID ≠ "")
    (htransport : makeRequest std c "DELETE" ("/articles/" ++ articleID) none w = (.ok resp, w1)) :
    ((DeleteArticle std c articleID w).1 = none ↔
      resp.StatusCode = 200 ∨ resp.StatusCode = 204) ∧
    (¬ (resp.StatusCode = 200 ∨ resp.StatusCode = 204) →
      (DeleteArticle std c articleID w).1 =
          some (.api (parseErrorResponse std resp.StatusCode resp.Body)) ∧
        (parseErrorResponse std resp.StatusCode resp.Body).StatusCode = resp.StatusCode) := by
  have hcode : (parseErrorResponse std resp.StatusCode resp.Body).StatusCode =
      resp.StatusCode := by
    unfold parseErrorResponse
    rcases std.UnmarshalAPIError resp.Body with e | a <;> rfl
  unfold DeleteArticle
  rw [if_neg hid]
  simp only [htransport]
  by_cases hs : resp.StatusCode ≠ 200 ∧ resp.StatusCode ≠ 204
  · rw [if_pos hs]
    refine ⟨⟨fun h => (by cases h), fun h => ?_⟩, fun _ => ⟨rfl, hcode⟩⟩
    rcases h with h | h
    · exact absurd h hs.1
    · exact absurd h hs.2
  · rw [if_neg hs]
    have h2 : resp.StatusCode = 200 ∨ resp.StatusCode = 204 := by
      by_contra hne
      exact hs ⟨fun h => hne (Or.inl h), fun h => hne (Or.inr h)⟩
    exact ⟨⟨fun _ => h2, fun _ => rfl⟩, fun hne => absurd h2 hne⟩

/-- Witness of `DeleteArticle_status`: the remote end answers the deletion of `A1` with
status 404. -/
theorem DeleteArticle_status_witness :
    (DeleteArticle scriptStd
        (scriptClient [.ok { StatusCode := 404, Body := "no such article", ReadErr := none }])
        "A1" World.initial).1 =
      some (.api { StatusCode := 404, Message := "no such article", Details := "" }) :=
  ((DeleteArticle_status scriptStd
    (scriptClient [.ok { StatusCode := 404, Body := "no such article", ReadErr := none }])
    "A1" World.initial _ { StatusCode := 404, Body := "no such article", ReadErr := none }
    (by decide) rfl).2 (by decide)).1

/-- C7: the error `parseErrorResponse` returns has the status code it was given, whatever
the body, also when the body is a structured error that carries a status code of its own;
when the body is not a structured error the message is the body and the details are
empty, and when it is, message and details are those of the body.  For the status 400 and
a body read as message `bad request` and details `missing field` the result is
400, `bad request`, `missing field`. -/
theorem parseErrorResponse_spec (std : Stdlib) (statusCode : Int) (body : String) :
    (parseErrorResponse std statusCode body).StatusCode = statusCode ∧
    (∀ e, std.UnmarshalAPIError body = .error e →
      parseErrorResponse std statusCode body =
        { StatusCode := statusCode, Message := body, Details := "" }) ∧
    (∀ parsed, std.UnmarshalAPIError body = .ok parsed →
      parseErrorResponse std statusCode body =
        { StatusCode := statusCode, Message := parsed.Message, Details := parsed.Details }) ∧
    (∀ own : Int,
      std.UnmarshalAPIError "\x7b\"message\":\"bad request\",\"details\":\"missing field\"\x7d" =
        .ok { StatusCode := own, Message := "bad request", Details := "missing field" } →
      parseErrorResponse std 400
          "\x7b\"message\":\"bad request\",\"details\":\"missing field\"\x7d" =
        { StatusCode := 400, Message := "bad request", Details := "missing field" }) := by
  unfold parseErrorResponse
  refine ⟨?_, ?_, ?_, ?_⟩
  · rcases std.UnmarshalAPIError body with e | a <;> rfl
  · intro e he
    rw [he]
  · intro parsed hp
    rw [hp]
  · intro own hown
    rw [hown]

/-- Witness of `parseErrorResponse_spec`: the scenario of the specification, and a body
that is no JSON. -/
theorem parseErrorResponse_spec_witness :
    parseErrorResponse scriptStd 400
        "\x7b\"message\":\"bad request\",\"details\":\"missing field\"\x7d" =
      { StatusCode := 400, Message := "bad request", Details := "missing field" } ∧
    parseErrorResponse scriptStd 502 "Bad Gateway" =
      { StatusCode := 502, Message := "Bad Gateway", Details := "" } :=
  ⟨(parseErrorResponse_spec scriptStd 400
      "\x7b\"message\":\"bad request\",\"details\":\"missing field\"\x7d").2.2.2 0 rfl,
    (parseErrorResponse_spec scriptStd 502 "Bad Gateway").2.1 "invalid character" rfl⟩

/-! ## Claims about `GenerateArticleAndWait` and the defaults -/

/-- `GenerateArticle` counts one invocation of itself, makes no retrieval and leaves the
record of the observer alone. -/
theorem GenerateArticle_counters (std : Stdlib) (c : Client) (targetKeyword : String)
    (options : Option GenerateArticleRequest) (w : World) :
    (GenerateArticle std c targetKeyword options w).2.generateCalls = w.generateCalls + 1 ∧
    (GenerateArticle std c targetKeyword options w).2.getCalls = w.getCalls ∧
    (GenerateArticle std c targetKeyword options w).2.progress = w.progress := by
  unfold GenerateArticle
  by_cases hkw : targetKeyword = ""
  · rw [if_pos hkw]
    exact ⟨rfl, rfl, rfl⟩
  · rw [if_neg hkw]
    simp only []
    rw [makeRequest_frame]
    rcases makeRequest std c "POST" "/generate-article" _ _ with ⟨r, w1⟩
    cases r with
    | err e => exact ⟨rfl, rfl, rfl⟩
    | ok resp =>
      simp only []
      rcases resp.ReadErr with _ | e
      · simp only []
        by_cases hs : resp.StatusCode ≠ 200
        · rw [if_pos hs]
          exact ⟨rfl, rfl, rfl⟩
        · rw [if_neg hs]
          rcases std.UnmarshalGenerateArticleResponse resp.Body with e | r <;>
            exact ⟨rfl, rfl, rfl⟩
      · exact ⟨rfl, rfl, rfl⟩

/-- C9: `GenerateArticleAndWait` invokes `GenerateArticle` once.  When that fails, it
returns the same error in the surroundings `GenerateArticle` left, no retrieval made.
When it succeeds, the result is that of `WaitForArticle` for the article id of the
acknowledgement, with 60 attempts and 5 seconds when `waitOptions` is nil and otherwise
with the options of the caller in which a zero `MaxAttempts` is replaced by 60 and a zero
`Interval` by 5 seconds. -/
theorem GenerateArticleAndWait_spec (std : Stdlib) (c : Client) (targetKeyword : String)
    (options : Option GenerateArticleRequest) (waitOptions : Option GenerateAndWaitOptions)
    (w : World) :
    let generated := GenerateArticle std c targetKeyword options w
    let out := GenerateArticleAndWait std c targetKeyword options waitOptions w
    let used : GenerateAndWaitOptions :=
      match waitOptions with
      | none => { MaxAttempts := 60, Interval := 5 * Second, OnProgress := false }
      | some o =>
        { MaxAttempts := if o.MaxAttempts = 0 then 60 else o.MaxAttempts,
          Interval := if o.Interval = 0 then 5 * Second else o.Interval,
          OnProgress := o.OnProgress }
    out.2.generateCalls = w.generateCalls + 1 ∧
    (∀ e, generated.1 = .err e → out = (.err e, generated.2) ∧ retrievals w out.2 = 0) ∧
    (∀ ack, generated.1 = .ok ack →
      out = WaitForArticle std c ack.ArticleID (some used) generated.2) := by
  intro generated out used
  have hused : GenerateArticleAndWait.defaults waitOptions = used := by
    cases waitOptions with
    | none => rfl
    | some o =>
      unfold GenerateArticleAndWait.defaults
      by_cases h1 : o.MaxAttempts = 0 <;> by_cases h2 : o.Interval = 0 <;>
        simp [used, h1, h2]
  obtain ⟨hgen, hget, _⟩ := GenerateArticle_counters std c targetKeyword options w
  have hout : out =
      match generated with
      | (.err e, w1) => (.err e, w1)
      | (.ok result, w1) => WaitForArticle std c result.ArticleID (some used) w1 := by
    rw [← hused]
    rfl
  have herr : ∀ e, generated.1 = .err e → out = (.err e, generated.2) := by
    intro e he
    rw [hout]
    rcases hg : generated with ⟨r, w1⟩
    rw [hg] at he
    cases he
    rfl
  have hok : ∀ ack, generated.1 = .ok ack →
      out = WaitForArticle std c ack.ArticleID (some used) generated.2 := by
    intro ack hack
    rw [hout]
    rcases hg : generated with ⟨r, w1⟩
    rw [hg] at hack
    cases hack
    rfl
  refine ⟨?_, fun e he => ⟨herr e he, ?_⟩, hok⟩
  · rcases hg : generated.1 with ack | e
    · rw [hok ack hg]
      exact (WaitForArticle_run std c ack.ArticleID (some used) generated.2).2.2.1.trans hgen
    · rw [herr e hg]
      exact hgen
  · rw [herr e he]
    unfold retrievals
    show generated.2.getCalls - w.getCalls = 0
    rw [hget]
    omega

/-- Witness of `GenerateArticleAndWait_spec`.  The keyword `x` is submitted with request
options that carry the keyword `y` and with wait options whose `MaxAttempts` and
`Interval` are zero; the remote end acknowledges the article `A1` and then answers
`pending` and `finished`.  `GenerateArticle` succeeds, and the composed operation is
`WaitForArticle` for `A1` with 60 attempts, 5 seconds and the observer of the caller: it
returns the finished snapshot after one generation, two retrievals and one suspension of
5 seconds.  With nil wait options it is `WaitForArticle` with 60 attempts, 5 seconds and
no observer.  With an empty keyword `GenerateArticle` fails and the composed operation
returns its error without a retrieval. -/
theorem GenerateArticleAndWait_spec_witness :
    (GenerateArticle scriptStd
        (scriptClient [okBody "ack", okBody "pending", okBody "finished"]) "x"
        (some { TargetKeyword := "y", Generation := none, SEO := none, Writing := none,
                Advanced := none }) World.initial).1 =
      .ok { ArticleID := "A1", ProjectID := "P1", Message := "queued" } ∧
    GenerateArticleAndWait scriptStd
        (scriptClient [okBody "ack", okBody "pending", okBody "finished"]) "x"
        (some { TargetKeyword := "y", Generation := none, SEO := none, Writing := none,
                Advanced := none })
        (some { MaxAttempts := 0, Interval := 0, OnProgress := true }) World.initial =
      WaitForArticle scriptStd
        (scriptClient [okBody "ack", okBody "pending", okBody "finished"]) "A1"
        (some { MaxAttempts := 60, Interval := 5000000000, OnProgress := true })
        (GenerateArticle scriptStd
          (scriptClient [okBody "ack", okBody "pending", okBody "finished"]) "x"
          (some { TargetKeyword := "y", Generation := none, SEO := none, Writing := none,
                  Advanced := none }) World.initial).2 ∧
    (GenerateArticleAndWait scriptStd
        (scriptClient [okBody "ack", okBody "pending", okBody "finished"]) "x"
        (some { TargetKeyword := "y", Generation := none, SEO := none, Writing := none,
                Advanced := none })
        (some { MaxAttempts := 0, Interval := 0, OnProgress := true }) World.initial).2.generateCalls =
      1 ∧
    GenerateArticleAndWait scriptStd
        (scriptClient [okBody "ack", okBody "pending", okBody "finished"]) "x"
        (some { TargetKeyword := "y", Generation := none, SEO := none, Writing := none,
                Advanced := none })
        (some { MaxAttempts := 0, Interval := 0, OnProgress := true }) World.initial =
      (.ok (snapshot "finished" ""),
        { requests :=
            [{ Method := "POST", URL := "https://semanticpen.vercel.app/api/generate-article",
               Header := [("Content-Type", "application/json"), ("Authorization", "Bearer key")],
               Body := some { TargetKeyword := "x", Generation := none, SEO := none,
                              Writing := none, Advanced := none } },
             { Method := "GET", URL := "https://semanticpen.vercel.app/api/articles/A1",
               Header := [("Content-Type", "application/json"), ("Authorization", "Bearer key")],
               Body := none },
             { Method := "GET", URL := "https://semanticpen.vercel.app/api/articles/A1",
               Header := [("Content-Type", "application/json"), ("Authorization", "Bearer key")],
               Body := none }],
          progress := [(1, "pending"), (2, "finished")],
          sleeps := [5000000000],
          getCalls := 2,
          generateCalls := 1 }) ∧
    GenerateArticleAndWait scriptStd
        (scriptClient [okBody "ack", okBody "pending", okBody "finished"]) "x" none none
        World.initial =
      WaitForArticle scriptStd
        (scriptClient [okBody "ack", okBody "pending", okBody "finished"]) "A1"
        (some { MaxAttempts := 60, Interval := 5000000000, OnProgress := false })
        (GenerateArticle scriptStd
          (scriptClient [okBody "ack", okBody "pending", okBody "finished"]) "x" none
          World.initial).2 ∧
    GenerateArticleAndWait scriptStd
        (scriptClient [okBody "ack", okBody "pending", okBody "finished"]) "" none
        (some { MaxAttempts := 0, Interval := 0, OnProgress := true }) World.initial =
      (.err (.validation { Field := "targetKeyword", Message := "target keyword is required" }),
        { World.initial with generateCalls := 1 }) :=
  ⟨rfl,
    (GenerateArticleAndWait_spec scriptStd
      (scriptClient [okBody "ack", okBody "pending", okBody "finished"]) "x"
      (some { TargetKeyword := "y", Generation := none, SEO := none, Writing := none,
              Advanced := none })
      (some { MaxAttempts := 0, Interval := 0, OnProgress := true }) World.initial).2.2
      { ArticleID := "A1", ProjectID := "P1", Message := "queued" } rfl,
    (GenerateArticleAndWait_spec scriptStd
      (scriptClient [okBody "ack", okBody "pending", okBody "finished"]) "x"
      (some { TargetKeyword := "y", Generation := none, SEO := none, Writing := none,
              Advanced := none })
      (some { MaxAttempts := 0, Interval := 0, OnProgress := true }) World.initial).1,
    ((GenerateArticleAndWait_spec scriptStd
      (scriptClient [okBody "ack", okBody "pending", okBody "finished"]) "x"
      (some { TargetKeyword := "y", Generation := none, SEO := none, Writing := none,
              Advanced := none })
      (some { MaxAttempts := 0, Interval := 0, OnProgress := true }) World.initial).2.2
      { ArticleID := "A1", ProjectID := "P1", Message := "queued" } rfl).trans (by decide),
    (GenerateArticleAndWait_spec scriptStd
      (scriptClient [okBody "ack", okBody "pending", okBody "finished"]) "x" none none
      World.initial).2.2
      { ArticleID := "A1", ProjectID := "P1", Message := "queued" } rfl,
    ((GenerateArticleAndWait_spec scriptStd
      (scriptClient [okBody "ack", okBody "pending", okBody "finished"]) "" none
      (some { MaxAttempts := 0, Interval := 0, OnProgress := true }) World.initial).2.1 _ rfl).1⟩

/-- C10, what the code does: with options that leave `MaxAttempts` at zero
`WaitForArticle` makes no retrieval at all and fails at once with the timeout error for
0 attempts, whatever the remote end would answer.  On a remote end whose article is
already finished, nil options do give the snapshot, and so does `GenerateArticleAndWait`
with the same zero options, which replaces the zero by 60 before it waits. -/
theorem WaitForArticle_zero_maxAttempts :
    (∀ (std : Stdlib) (c : Client) (articleID : String) (interval : Int) (onProgress : Bool)
        (w : World),
      WaitForArticle std c articleID
          (some { MaxAttempts := 0, Interval := interval, OnProgress := onProgress }) w =
        (.err (.errorString "article generation timeout after 0 attempts"), w)) ∧
    WaitForArticle scriptStd (scriptClient [okBody "finished"]) "A1"
        (some { MaxAttempts := 0, Interval := 0, OnProgress := true }) World.initial =
      (.err (.errorString "article generation timeout after 0 attempts"), World.initial) ∧
    (WaitForArticle scriptStd (scriptClient [okBody "finished"]) "A1" none World.initial).1 =
      .ok (snapshot "finished" "") ∧
    (GenerateArticleAndWait scriptStd (scriptClient [okBody "ack", okBody "finished"]) "x" none
        (some { MaxAttempts := 0, Interval := 0, OnProgress := true }) World.initial).1 =
      .ok (snapshot "finished" "") :=
  ⟨fun _ _ _ _ _ _ => rfl, rfl, by decide, by decide⟩

/-! ## The suspensions of the loop -/

theorem suspensions_zero (o : GenerateAndWaitOptions) (a : Int) (f : Nat → Result Article) :
    suspensions o a f 0 = [] := rfl

theorem suspensions_succ (o : GenerateAndWaitOptions) (a : Int) (f : Nat → Result Article)
    (k : Nat) :
    suspensions o a f (k + 1) =
      (if (f 0).inProgress ∧ a < o.MaxAttempts then [o.Interval] else []) ++
        suspensions o (a + 1) (fun i => f (i + 1)) k := by
  unfold suspensions
  rw [List.range_succ_eq_map, List.filter_cons, List.filter_map]
  have hfun : ((fun (i : Nat) => decide ((f i).inProgress ∧ a + (i : Int) < o.MaxAttempts)) ∘
      Nat.succ) =
      fun (i : Nat) => decide ((f (i + 1)).inProgress ∧ a + 1 + (i : Int) < o.MaxAttempts) := by
    funext i
    simp only [Function.comp, Nat.succ_eq_add_one, Nat.cast_add, Nat.cast_one]
    congr 2
    rw [add_assoc, add_comm (1 : Int)]
  rw [hfun]
  have hhead : decide ((f 0).inProgress ∧ a + ((0 : Nat) : Int) < o.MaxAttempts) = true ↔
      ((f 0).inProgress ∧ a < o.MaxAttempts) := by simp
  by_cases h0 : (f 0).inProgress ∧ a < o.MaxAttempts
  · rw [if_pos (hhead.mpr h0), if_pos h0, List.map_cons, List.map_map]
    rfl
  · rw [if_neg (fun h => h0 (hhead.mp h)), if_neg h0, List.map_map]
    rfl

theorem suspensions_one_of_not_inProgress (o : GenerateAndWaitOptions) (a : Int)
    (f : Nat → Result Article) (h : ¬ (f 0).inProgress) : suspensions o a f 1 = [] := by
  rw [suspensions_succ, suspensions_zero, if_neg (fun hc => h hc.1)]
  rfl

/-- The suspensions of a run of the loop: `time.Sleep(options.Interval)` is called once
after each retrieval that gave a `pending` or `processing` snapshot at an attempt before
the last one allowed, and at no other point. -/
theorem waitLoop_sleeps (std : Stdlib) (c : Client) (articleID : String)
    (o : GenerateAndWaitOptions) :
    ∀ (n : Nat) (a : Int) (w : World), n = (o.MaxAttempts + 1 - a).toNat →
      (waitLoop std c articleID o n a w).2.sleeps =
        w.sleeps ++ suspensions o a (nthPoll std c articleID w)
          (retrievals w (waitLoop std c articleID o n a w).2) := by
  intro n
  induction n with
  | zero =>
    intro a w _
    show w.sleeps = w.sleeps ++ suspensions o a _ (w.getCalls - w.getCalls)
    rw [Nat.sub_self, suspensions_zero, List.append_nil]
  | succ n ih =>
    intro a w hn
    have ha : a ≤ o.MaxAttempts := by omega
    have hn1 : n = (o.MaxAttempts + 1 - (a + 1)).toNat := by omega
    rcases hg : GetArticle std c articleID w with ⟨r, w1⟩
    have hw1 : (GetArticle std c articleID w).2 = w1 := by rw [hg]
    have hcalls : w1.getCalls = w.getCalls + 1 := by
      rw [← hw1]; exact GetArticle_getCalls std c articleID w
    have hsl : w1.sleeps = w.sleeps := by
      rw [← hw1]; exact GetArticle_sleeps std c articleID w
    have hone : w.getCalls + 1 - w.getCalls = 1 := by omega
    cases r with
    | err e =>
      have h0 : nthPoll std c articleID w 0 = .err e := by rw [nthPoll_zero, hg]
      rw [waitLoop_err std c articleID o n a w w1 e ha hg]
      show w1.sleeps = w.sleeps ++ suspensions o a _ (w1.getCalls - w.getCalls)
      rw [hcalls, hone, suspensions_one_of_not_inProgress o a _ (by rw [h0]; exact id),
        List.append_nil, hsl]
    | ok s =>
      have h0 : nthPoll std c articleID w 0 = .ok s := by rw [nthPoll_zero, hg]
      by_cases hfin : s.Status = "finished"
      · rw [waitLoop_finished std c articleID o n a w w1 s ha hg hfin]
        show w1.sleeps = w.sleeps ++ suspensions o a _ (w1.getCalls - w.getCalls)
        have hnp : ¬ (nthPoll std c articleID w 0).inProgress := by
          rw [h0]
          show ¬ (s.Status = "pending" ∨ s.Status = "processing")
          rw [hfin]
          decide
        rw [hcalls, hone, suspensions_one_of_not_inProgress o a _ hnp, List.append_nil, hsl]
      · by_cases hfail : s.Status = "failed"
        · rw [waitLoop_failed std c articleID o n a w w1 s ha hg hfail]
          show w1.sleeps = w.sleeps ++ suspensions o a _ (w1.getCalls - w.getCalls)
          have hnp : ¬ (nthPoll std c articleID w 0).inProgress := by
            rw [h0]
            show ¬ (s.Status = "pending" ∨ s.Status = "processing")
            rw [hfail]
            decide
          rw [hcalls, hone, suspensions_one_of_not_inProgress o a _ hnp, List.append_nil, hsl]
        · rw [waitLoop_continue std c articleID o n a w w1 s ha hg hfin hfail]
          generalize hw3 : ({ w1 with
            progress := w1.progress ++ (if o.OnProgress then [(a, s.Status)] else []),
            sleeps := w1.sleeps ++
              (if (s.Status = "pending" ∨ s.Status = "processing") ∧ a < o.MaxAttempts then
                [o.Interval] else []) } : World) = w3
          have e1 : w3.requests = w1.requests := by rw [← hw3]
          have e2 : w3.getCalls = w1.getCalls := by rw [← hw3]
          have e5 : w3.sleeps = w.sleeps ++
              (if (s.Status = "pending" ∨ s.Status = "processing") ∧ a < o.MaxAttempts then
                [o.Interval] else []) := by
            rw [← hw3, ← hsl]
          have hshift : (fun i => nthPoll std c articleID w (i + 1)) =
              nthPoll std c articleID w3 := by
            funext i
            rw [nthPoll_succ, hw1]
            exact (nthPoll_congr std c articleID e1 i).symm
          obtain ⟨k, _, hc, _⟩ := waitLoop_run std c articleID o n (a + 1) w3 hn1
          have hr3 : retrievals w3 (waitLoop std c articleID o n (a + 1) w3).2 = k := by
            unfold retrievals
            rw [hc]
            omega
          have hr : retrievals w (waitLoop std c articleID o n (a + 1) w3).2 = k + 1 := by
            unfold retrievals
            rw [hc, e2, hcalls]
            omega
          rw [ih (a + 1) w3 hn1, hr3, hr, suspensions_succ, hshift, e5, h0, List.append_assoc]
          rfl

/-! ## Replacing the status of snapshots that are not terminal -/

/-- The result and the observer record of a run, as functions of the script and of the
number of retrievals. -/
theorem LoopRun_result (std : Stdlib) (c : Client) (articleID : String)
    (o : GenerateAndWaitOptions) (n : Nat) (a : Int) (w : World)
    (out : Result Article × World) (k : Nat) (h : LoopRun std c articleID o n a w out k) :
    out.1 = loopResult o (nthPoll std c articleID w) k ∧
    out.2.progress = w.progress ++
      observed o a (nthPoll std c articleID w) (snapshotCount (nthPoll std c articleID w) k) := by
  obtain ⟨_, _, _, _, _, hcase⟩ := h
  rcases hcase with ⟨_, hall, hres, hp⟩ | ⟨j, s, hkj, hj, hst, hres, hp⟩ |
    ⟨j, s, hkj, hj, hst, hres, hp⟩ | ⟨j, e, hkj, hj, hres, hp⟩
  · cases k with
    | zero => exact ⟨hres, hp⟩
    | succ j =>
      have hnt := hall j (by omega)
      rcases hj : nthPoll std c articleID w j with s | e
      · rw [hj] at hnt
        refine ⟨?_, ?_⟩
        · rw [hres]
          simp only [loopResult, hj, if_neg hnt.1, if_neg hnt.2]
        · rw [hp]
          simp only [snapshotCount, hj]
      · rw [hj] at hnt
        exact absurd hnt id
  · subst hkj
    refine ⟨?_, ?_⟩
    · rw [hres]
      simp only [loopResult, hj, if_pos hst]
    · rw [hp]
      simp only [snapshotCount, hj]
  · subst hkj
    have hnf : ¬ s.Status = "finished" := by rw [hst]; decide
    refine ⟨?_, ?_⟩
    · rw [hres]
      simp only [loopResult, hj, if_neg hnf, if_pos hst]
    · rw [hp]
      simp only [snapshotCount, hj]
  · subst hkj
    refine ⟨?_, ?_⟩
    · rw [hres]
      simp only [loopResult, hj]
    · rw [hp]
      simp only [snapshotCount, hj]

theorem StatusReplaced.nonTerminal_iff {f g : Nat → Result Article} (h : StatusReplaced f g)
    (i : Nat) : (f i).nonTerminal ↔ (g i).nonTerminal := by
  rcases h i with heq | ⟨a, u, hf, h1, h2, _, _, h5, h6, hg⟩
  · rw [heq]
  · rw [hf, hg]
    exact ⟨fun _ => ⟨h5, h6⟩, fun _ => ⟨h1, h2⟩⟩

theorem StatusReplaced.eq_of_terminal {f g : Nat → Result Article} (h : StatusReplaced f g)
    (i : Nat) (hstop : ¬ (f i).nonTerminal) : f i = g i := by
  rcases h i with heq | ⟨a, u, hf, h1, h2, _, _, _, _, _⟩
  · exact heq
  · rw [hf] at hstop
    exact absurd ⟨h1, h2⟩ hstop

/-- A run on a script makes at least as many retrievals as a run on another script, with
the same options, of which every snapshot that is not terminal is not terminal in the
first script either. -/
theorem LoopRun_retrievals_le {std std2 : Stdlib} {c c2 : Client} {articleID articleID2 : String}
    {o : GenerateAndWaitOptions} {n : Nat} {a : Int} {w w2 : World}
    {out out2 : Result Article × World} {k k2 : Nat}
    (h : LoopRun std c articleID o n a w out k)
    (h2 : LoopRun std2 c2 articleID2 o n a w2 out2 k2)
    (hnt : ∀ i, (nthPoll std2 c2 articleID2 w2 i).nonTerminal →
      (nthPoll std c articleID w i).nonTerminal) : k2 ≤ k := by
  by_contra hlt
  obtain ⟨_, _, _, _, _, hcase⟩ := h
  obtain ⟨hk2, _, _, _, hpre2, _⟩ := h2
  rcases hcase with ⟨hkn, _, _, _⟩ | ⟨j, s, hkj, hj, hst, _, _⟩ |
    ⟨j, s, hkj, hj, hst, _, _⟩ | ⟨j, e, hkj, hj, _, _⟩
  · omega
  · exact absurd hst (Result.nonTerminal_ok (hnt j (hpre2 j (by omega))) hj).1
  · exact absurd hst (Result.nonTerminal_ok (hnt j (hpre2 j (by omega))) hj).2
  · exact absurd hj (Result.nonTerminal_not_err (hnt j (hpre2 j (by omega))))

theorem observed_attempts (o : GenerateAndWaitOptions) (a : Int) (f g : Nat → Result Article)
    (k : Nat) : (observed o a f k).map Prod.fst = (observed o a g k).map Prod.fst := by
  unfold observed
  split
  · simp only [List.map_map]
    rfl
  · rfl

/-- The part of C12 that holds: when the status of snapshots that are not terminal is
replaced by unknown strings, `WaitForArticle` with the same options returns the same
result after the same number of retrievals and invokes the observer with the same attempt
numbers. -/
theorem WaitForArticle_status_replaced (std std2 : Stdlib) (c c2 : Client)
    (articleID articleID2 : String) (o : GenerateAndWaitOptions) (w w2 : World)
    (hrep : StatusReplaced (nthPoll std c articleID w) (nthPoll std2 c2 articleID2 w2)) :
    (WaitForArticle std c articleID (some o) w).1 =
      (WaitForArticle std2 c2 articleID2 (some o) w2).1 ∧
    retrievals w (WaitForArticle std c articleID (some o) w).2 =
      retrievals w2 (WaitForArticle std2 c2 articleID2 (some o) w2).2 ∧
    ∃ p p2, (WaitForArticle std c articleID (some o) w).2.progress = w.progress ++ p ∧
      (WaitForArticle std2 c2 articleID2 (some o) w2).2.progress = w2.progress ++ p2 ∧
      p.map Prod.fst = p2.map Prod.fst := by
  have h : LoopRun std c articleID o o.MaxAttempts.toNat 1 w
      (WaitForArticle std c articleID (some o) w)
      (retrievals w (WaitForArticle std c articleID (some o) w).2) :=
    WaitForArticle_run std c articleID (some o) w
  have h2 : LoopRun std2 c2 articleID2 o o.MaxAttempts.toNat 1 w2
      (WaitForArticle std2 c2 articleID2 (some o) w2)
      (retrievals w2 (WaitForArticle std2 c2 articleID2 (some o) w2).2) :=
    WaitForArticle_run std2 c2 articleID2 (some o) w2
  have hk : retrievals w (WaitForArticle std c articleID (some o) w).2 =
      retrievals w2 (WaitForArticle std2 c2 articleID2 (some o) w2).2 :=
    le_antisymm
      (LoopRun_retrievals_le h2 h fun i hi => (hrep.nonTerminal_iff i).mp hi)
      (LoopRun_retrievals_le h h2 fun i hi => (hrep.nonTerminal_iff i).mpr hi)
  obtain ⟨hres, hprog⟩ := LoopRun_result std c articleID o _ 1 w _ _ h
  obtain ⟨hres2, hprog2⟩ := LoopRun_result std2 c2 articleID2 o _ 1 w2 _ _ h2
  rw [← hk] at hres2 hprog2
  generalize hkk : retrievals w (WaitForArticle std c articleID (some o) w).2 = k
    at hres hprog hres2 hprog2 ⊢
  -- the last retrieval decides the result and the number of snapshots observed
  have hlast : loopResult o (nthPoll std c articleID w) k =
        loopResult o (nthPoll std2 c2 articleID2 w2) k ∧
      snapshotCount (nthPoll std c articleID w) k =
        snapshotCount (nthPoll std2 c2 articleID2 w2) k := by
    cases k with
    | zero => exact ⟨rfl, rfl⟩
    | succ j =>
      by_cases hnt : (nthPoll std c articleID w j).nonTerminal
      · have hnt2 := (hrep.nonTerminal_iff j).mp hnt
        rcases hf : nthPoll std c articleID w j with s | e
        · rcases hg : nthPoll std2 c2 articleID2 w2 j with s2 | e2
          · rw [hf] at hnt
            rw [hg] at hnt2
            simp only [loopResult, snapshotCount, hf, hg, if_neg hnt.1, if_neg hnt.2,
              if_neg hnt2.1, if_neg hnt2.2, and_self]
          · rw [hg] at hnt2
            exact absurd hnt2 id
        · rw [hf] at hnt
          exact absurd hnt id
      · have heq := hrep.eq_of_terminal j hnt
        simp only [loopResult, snapshotCount, heq, and_self]
  refine ⟨by rw [hres, hres2, hlast.1], hkk.symm.trans hk, _, _, hprog, hprog2, ?_⟩
  rw [hlast.2]
  exact observed_attempts o 1 _ _ _

/-- C12, what the code does: `WaitForArticle` suspends only after a snapshot whose status
is `pending` or `processing` (and not after the last attempt allowed); a snapshot with any
other non-terminal status is followed by the next retrieval at once.  With five attempts
allowed and an interval of 7, the statuses pending, pending, finished and the statuses
pending, queued, finished give the same result, three retrievals each and the observer the
attempts 1, 2, 3 each, but two suspensions in the first run and one in the second. -/
theorem WaitForArticle_unknown_status_not_suspended :
    (∀ (std : Stdlib) (c : Client) (articleID : String) (o : GenerateAndWaitOptions)
        (w : World),
      (WaitForArticle std c articleID (some o) w).2.sleeps =
        w.sleeps ++ suspensions o 1 (nthPoll std c articleID w)
          (retrievals w (WaitForArticle std c articleID (some o) w).2)) ∧
    (let known := WaitForArticle scriptStd
        (scriptClient [okBody "pending", okBody "pending", okBody "finished"]) "A1"
        (some { MaxAttempts := 5, Interval := 7, OnProgress := true }) World.initial
     let replaced := WaitForArticle scriptStd
        (scriptClient [okBody "pending", okBody "queued", okBody "finished"]) "A1"
        (some { MaxAttempts := 5, Interval := 7, OnProgress := true }) World.initial
     known.1 = .ok (snapshot "finished" "") ∧ replaced.1 = .ok (snapshot "finished" "") ∧
     retrievals World.initial known.2 = 3 ∧ retrievals World.initial replaced.2 = 3 ∧
     known.2.progress = [(1, "pending"), (2, "pending"), (3, "finished")] ∧
     replaced.2.progress = [(1, "pending"), (2, "queued"), (3, "finished")] ∧
     known.2.sleeps = [7, 7] ∧ replaced.2.sleeps = [7]) :=
  ⟨fun std c articleID o w =>
      waitLoop_sleeps std c articleID o o.MaxAttempts.toNat 1 w (by omega),
    by decide⟩

/-! ## The struct of the caller after a polling call -/

/-- The struct both methods poll with, as the pointer model gives it, is the one the
definitions `WaitForArticle.effective` and `GenerateArticleAndWait.defaults` give. -/
theorem WaitForArticle_store_load (options : Option GenerateAndWaitOptions) :
    (WaitForArticle.store (OptionsStore.entry options)).2.load
        (WaitForArticle.store (OptionsStore.entry options)).1 =
      some (WaitForArticle.effective options) := by
  cases options <;> rfl

theorem GenerateArticleAndWait_store_some (o : GenerateAndWaitOptions) (generated : Bool) :
    GenerateArticleAndWait.store (OptionsStore.entry (some o)) generated =
      (.caller,
        { caller := some
            { MaxAttempts := if o.MaxAttempts = 0 then 60 else o.MaxAttempts,
              Interval := if o.Interval = 0 then 5 * Second else o.Interval,
              OnProgress := o.OnProgress },
          allocated := none }) := by
  unfold GenerateArticleAndWait.store WaitForArticle.store allocateDefaults OptionsStore.entry
  by_cases h1 : o.MaxAttempts = 0 <;> by_cases h2 : o.Interval = 0 <;>
    cases generated <;>
    simp [OptionsStore.load, OptionsStore.assign, h1, h2]

theorem GenerateArticleAndWait_store_load (waitOptions : Option GenerateAndWaitOptions)
    (generated : Bool) :
    (GenerateArticleAndWait.store (OptionsStore.entry waitOptions) generated).2.load
        (GenerateArticleAndWait.store (OptionsStore.entry waitOptions) generated).1 =
      some (GenerateArticleAndWait.defaults waitOptions) := by
  cases waitOptions with
  | none => cases generated <;> rfl
  | some o =>
    rw [GenerateArticleAndWait_store_some]
    unfold GenerateArticleAndWait.defaults
    by_cases h1 : o.MaxAttempts = 0 <;> by_cases h2 : o.Interval = 0 <;>
      simp [OptionsStore.load, h1, h2]

theorem GenerateArticleAndWait_store_caller (waitOptions : Option GenerateAndWaitOptions)
    (generated : Bool) :
    (GenerateArticleAndWait.store (OptionsStore.entry waitOptions) generated).2.caller =
      GenerateArticleAndWait.callerOptions waitOptions := by
  cases waitOptions with
  | none => cases generated <;> rfl
  | some o =>
    rw [GenerateArticleAndWait_store_some]
    unfold GenerateArticleAndWait.callerOptions GenerateArticleAndWait.defaults
    by_cases h1 : o.MaxAttempts = 0 <;> by_cases h2 : o.Interval = 0 <;>
      simp [h1, h2]

/-- C11, as stated, fails: called with options whose `MaxAttempts` and `Interval` are
zero, `GenerateArticleAndWait` leaves 60 and 5 seconds in the struct of the caller, whether
`GenerateArticle` succeeds or not. -/
theorem GenerateArticleAndWait_writes_caller_options :
    (GenerateArticleAndWait.store
        (OptionsStore.entry (some { MaxAttempts := 0, Interval := 0, OnProgress := true }))
        true).2.caller =
      some { MaxAttempts := 60, Interval := 5000000000, OnProgress := true } ∧
    (GenerateArticleAndWait.store
        (OptionsStore.entry (some { MaxAttempts := 0, Interval := 0, OnProgress := true }))
        false).2.caller =
      some { MaxAttempts := 60, Interval := 5000000000, OnProgress := true } ∧
    (GenerateArticleAndWait.store
        (OptionsStore.entry (some { MaxAttempts := 0, Interval := 0, OnProgress := true }))
        true).2.caller ≠
      some { MaxAttempts := 0, Interval := 0, OnProgress := true } := by
  decide

/-- C11, amended: `WaitForArticle` leaves the struct of the caller as it was.
`GenerateArticleAndWait` leaves `OnProgress` as it was and `MaxAttempts` and `Interval` as
they were when they are not zero; a `MaxAttempts` of zero has become 60 and an `Interval`
of zero has become 5 seconds in the struct of the caller, whether `GenerateArticle`
succeeded or not. -/
theorem wait_options_after_call (o : GenerateAndWaitOptions) (generated : Bool) :
    (WaitForArticle.store (OptionsStore.entry (some o))).2.caller = some o ∧
    (GenerateArticleAndWait.store (OptionsStore.entry (some o)) generated).2.caller =
      some
        { MaxAttempts := if o.MaxAttempts = 0 then 60 else o.MaxAttempts,
          Interval := if o.Interval = 0 then 5 * Second else o.Interval,
          OnProgress := o.OnProgress } := by
  refine ⟨rfl, ?_⟩
  rw [GenerateArticleAndWait_store_some]

end SemanticPen
